import Mathlib

/-!
Verification development for the `signalk-qxs001-plugin` repository.

The repository contains two JavaScript implementations of the same
remote-control concept:

* the "root" implementation (`src/index.js`), whose engine state is the
  mutable `state` object and whose operations are `deriveDisplayId`,
  `ensureActiveDisplayValid`, `nextDisplay`, `getDashboards`,
  `getActiveDashboardIndex`, `writeActiveDashboard`, `refreshKip`,
  `refreshDashboards`, `onKeyEvent`, `setError` and the router handlers
  (`PUT /display`, `GET /api/status`);
* the "plugin" implementation (`src/plugin/index.js`), with state in the
  closure variables (`kipDisplays`, `kipDashboardsByDisplay`,
  `kipScreenIndexByDisplay`, `selectedDisplayId`, `persistent.bindings`)
  and operations `normalizeDisplayList`, `normalizeDashboards`,
  `normalizeScreenIndex`, `refreshKipDisplaysAndDashboards`,
  `refreshKipScreenIndexes`, `kipSetActiveScreen`, `getPlayAction`,
  `mergeBindings`, `normalizeBindingFromSettings`,
  `applyPlayBindingsFromSettings`, `executePlayAction` and `handleKey`.

JavaScript values flowing through these functions are modelled by the
`JVal` type below; JavaScript numbers are modelled as integers (every
number the modelled code paths produce or compare is an integer).
External I/O (the KIP Display Service HTTP endpoints, the Signal K
self-path client, outbound REST requests) is modelled by explicit
oracle parameters: a call either yields a payload / succeeds, or throws.
Object-reference equality of JavaScript is not modelled: `jsStrictEq`
compares primitives by value and makes distinct objects/arrays unequal,
which is faithful for every identifier the modelled code compares
(display ids, dashboard ids and key names are primitives).
-/

/-- A JavaScript value as it appears in the plugin's data flow.
`undefinedV` models `undefined` (e.g. a missing object property), `null`
models JS `null`. Numbers are modelled as integers. -/
inductive JVal where
  | null : JVal
  | undefinedV : JVal
  | bool : Bool → JVal
  | num : Int → JVal
  | str : String → JVal
  | arr : List JVal → JVal
  | obj : List (String × JVal) → JVal

/-- First value bound to a key in an association list (JS object lookup;
the model's string-keyed caches and objects are association lists whose
keys are unique because they are only built with `setKey`). -/
def lookupA {α : Type} : List (String × α) → String → Option α
  | [], _ => none
  | (k, v) :: rest, key => if k = key then some v else lookupA rest key

/-- JS object property assignment `m[k] = v`: overwrite an existing key in
place, otherwise append the key in insertion order. -/
def setKey {α : Type} : List (String × α) → String → α → List (String × α)
  | [], k, v => [(k, v)]
  | (k', v') :: rest, k, v =>
    if k' = k then (k, v) :: rest else (k', v') :: setKey rest k v

/-- JavaScript truthiness of a `JVal` (`NaN` is not modelled; objects and
arrays are always truthy). -/
def JVal.truthy : JVal → Bool
  | .null => false
  | .undefinedV => false
  | .bool b => b
  | .num n => n != 0
  | .str s => s != ""
  | .arr _ => true
  | .obj _ => true

/-- JS property access `v.k`: `undefined` unless `v` is an object with the
key (array index / string properties are not reached by the modelled code). -/
def JVal.getF : JVal → String → JVal
  | .obj fs, k => (lookupA fs k).getD .undefinedV
  | _, _ => .undefinedV

/-- JS `a || b`. -/
def jsOrVal (a b : JVal) : JVal := if a.truthy then a else b

/-- JS `a ?? b` (nullish coalescing). -/
def jsNullish (a b : JVal) : JVal :=
  match a with
  | .null => b
  | .undefinedV => b
  | v => v

/-- JS strict equality `===` restricted to the primitives the code
compares; two objects/arrays are never identified (reference equality is
not modelled, and the modelled code only compares primitive identifiers). -/
def jsStrictEq : JVal → JVal → Bool
  | .null, .null => true
  | .undefinedV, .undefinedV => true
  | .bool a, .bool b => a == b
  | .num a, .num b => a == b
  | .str a, .str b => a == b
  | _, _ => false

/-- JS `String(v)` coercion with an explicit recursion budget, so that the
definition is structural in the budget and computes definitionally.
Array elements that are `null`/`undefined` join as empty strings, as in
`Array.prototype.join`. -/
def jsToStringFuel : Nat → JVal → String
  | _, .null => "null"
  | _, .undefinedV => "undefined"
  | _, .bool b => if b then "true" else "false"
  | _, .num n => toString n
  | _, .str s => s
  | _, .obj _ => "[object Object]"
  | 0, .arr _ => ""
  | fuel + 1, .arr xs =>
    String.intercalate "," (xs.map fun v =>
      match v with
      | .null => ""
      | .undefinedV => ""
      | v => jsToStringFuel fuel v)

/-- JS `String(v)` coercion. The fixed budget bounds only the array
nesting depth, far beyond any value the modelled code can construct. -/
def jsToString (v : JVal) : String := jsToStringFuel 1000000 v

/-- JS `s.toUpperCase()` (ASCII mapping, which covers every method name
the code uppercases). -/
def jsToUpperCase (s : String) : String := .mk (s.data.map Char.toUpper)

/-- JS `s.trim()`: strip leading and trailing whitespace. -/
def jsTrim (s : String) : String :=
  .mk (((s.data.dropWhile Char.isWhitespace).reverse.dropWhile Char.isWhitespace).reverse)

/-- JS `xs.indexOf(v)` on an array of values (`-1` when absent). -/
def jsIndexOf (xs : List JVal) (v : JVal) : Int :=
  match xs.findIdx? (fun x => jsStrictEq x v) with
  | some i => (i : Int)
  | none => -1

/-- JS array subscript `xs[i]` with an integer index (`undefined` when out
of range). -/
def jsIndex (xs : List JVal) (i : Int) : JVal :=
  if 0 ≤ i then xs.getD i.toNat .undefinedV else .undefinedV

/-- JS `xs.includes(v)` (SameValueZero agrees with `===` on the modelled
primitives). -/
def jsIncludes (xs : List JVal) (v : JVal) : Bool :=
  xs.any (fun x => jsStrictEq x v)

/-! ## Plugin implementation (`src/plugin/index.js`) -/

/-- `normalizeDisplayList(payload)`: a bare array, or an envelope under
`displays` or `items`; anything else is the empty list. -/
def normalizeDisplayList (payload : JVal) : List JVal :=
  match payload with
  | .arr xs => xs
  | _ =>
    if payload.truthy then
      match payload.getF "displays" with
      | .arr xs => xs
      | _ =>
        match payload.getF "items" with
        | .arr xs => xs
        | _ => []
    else []

/-- `normalizeDashboards(payload)`: a bare array, or an envelope under
`dashboards` or `items`; anything else is the empty list. -/
def normalizeDashboards (payload : JVal) : List JVal :=
  match payload with
  | .arr xs => xs
  | _ =>
    if payload.truthy then
      match payload.getF "dashboards" with
      | .arr xs => xs
      | _ =>
        match payload.getF "items" with
        | .arr xs => xs
        | _ => []
    else []

/-- `normalizeScreenIndex(payload)`: a bare number, or a number under
`screenIndex`, `index` or `activeScreen`; otherwise `null` (`none`). -/
def normalizeScreenIndex (payload : JVal) : Option Int :=
  match payload with
  | .num n => some n
  | _ =>
    if payload.truthy then
      match payload.getF "screenIndex" with
      | .num n => some n
      | _ =>
        match payload.getF "index" with
        | .num n => some n
        | _ =>
          match payload.getF "activeScreen" with
          | .num n => some n
          | _ => none
    else none

/-- The plugin implementation's closure state: last-key telemetry, the
KIP caches, the selected display, the persisted play bindings, and the
sequence of status/error messages reported to the host
(`app.setPluginStatus` / `app.setPluginError`). -/
structure PluginState where
  lastKey : JVal
  lastKeyAt : JVal
  lastKeyCode : JVal
  kipDisplays : List JVal
  kipDashboardsByDisplay : List (String × List JVal)
  kipScreenIndexByDisplay : List (String × Int)
  selectedDisplayId : JVal
  bindings : List (String × List (String × JVal))
  reported : List String

/-- Oracle for the KIP Display Service HTTP endpoints as consumed by the
plugin implementation (`none` / `false` models a thrown request). -/
structure KipSvc where
  displays : Option JVal
  dashboards : String → Option JVal
  screenIndex : String → Option JVal
  postOk : String → Int → Bool

/-- An observable outbound side effect of the plugin implementation. -/
inductive Eff where
  | postActiveScreen : String → Int → Eff
  | restAny : String → String → Option JVal → Option JVal → Eff
  | restLocal : String → String → Option JVal → Eff

/-- `d.displayId` of one entry of `kipDisplays`. -/
def dId (d : JVal) : JVal := d.getF "displayId"

/-- `d.displayId` coerced to an object key. -/
def dKey (d : JVal) : String := jsToString (dId d)

/-- One step of the dashboards-cache rebuild: fetch display `d`'s
dashboard list and store its normalization, or `[]` when the fetch
throws. -/
def dashFetchStep (svc : KipSvc) (m : List (String × List JVal)) (d : JVal) :
    List (String × List JVal) :=
  match svc.dashboards (dKey d) with
  | some p => setKey m (dKey d) (normalizeDashboards p)
  | none => setKey m (dKey d) []

/-- `refreshKipDisplaysAndDashboards()`: fetch and normalize the display
list (a throw leaves everything unchanged and propagates, second
component `true`), fix up `selectedDisplayId` only when the new list is
non-empty, then rebuild the whole dashboards cache, storing `[]` for a
display whose dashboards fetch throws. -/
def refreshKipDisplaysAndDashboards (svc : KipSvc) (st : PluginState) :
    PluginState × Bool :=
  match svc.displays with
  | none => (st, true)
  | some payload =>
    let kd := normalizeDisplayList payload
    let sel1 :=
      match kd with
      | [] => st.selectedDisplayId
      | d :: _ => if !st.selectedDisplayId.truthy then dId d else st.selectedDisplayId
    let sel2 :=
      match kd with
      | [] => sel1
      | d :: _ =>
        if sel1.truthy && !(kd.any fun x => jsStrictEq (dId x) sel1) then dId d else sel1
    let newDash := kd.foldl (dashFetchStep svc) []
    ({ st with kipDisplays := kd, selectedDisplayId := sel2,
               kipDashboardsByDisplay := newDash }, false)

/-- One step of the screen-index refresh: fetch display `d`'s index and
store its normalization (`0` for a non-number); on a throw keep the
existing entry, defaulting it to `0` only when absent. -/
def screenFetchStep (svc : KipSvc) (m : List (String × Int)) (d : JVal) :
    List (String × Int) :=
  match svc.screenIndex (dKey d) with
  | some p =>
    match normalizeScreenIndex p with
    | some n => setKey m (dKey d) n
    | none => setKey m (dKey d) 0
  | none =>
    match lookupA m (dKey d) with
    | some _ => m
    | none => setKey m (dKey d) 0

/-- `refreshKipScreenIndexes()`: for each known display fetch its screen
index into the cache via `screenFetchStep`. -/
def refreshKipScreenIndexes (svc : KipSvc) (st : PluginState) : PluginState :=
  { st with kipScreenIndexByDisplay :=
      st.kipDisplays.foldl (screenFetchStep svc) st.kipScreenIndexByDisplay }

/-- `kipSetActiveScreen(displayId, newIndex)`: POST the new index; only
after a successful POST re-fetch the screen indexes; a failed POST
throws (second component `true`) leaving the state unchanged. -/
def kipSetActiveScreen (svc : KipSvc) (st : PluginState)
    (displayId : String) (newIndex : Int) : PluginState × List Eff × Bool :=
  if svc.postOk displayId newIndex then
    (refreshKipScreenIndexes svc st, [.postActiveScreen displayId newIndex], false)
  else
    (st, [.postActiveScreen displayId newIndex], true)

/-- The default play action `{ type: "none" }`. -/
def noneAction : JVal := .obj [("type", .str "none")]

/-- `getPlayAction(displayId, dashboardId)`: look up the persisted binding,
defaulting to `{ type: "none" }`. -/
def getPlayAction (bindings : List (String × List (String × JVal)))
    (displayId dashboardId : JVal) : JVal :=
  match lookupA bindings (jsToString displayId) with
  | none => noneAction
  | some m =>
    match lookupA m (jsToString dashboardId) with
    | some a => jsOrVal a noneAction
    | none => noneAction

/-- `mergeBindings(src)`: for every display mentioned in `src`, ensure a
container exists and overwrite exactly the mentioned dashboard entries. -/
def mergeBindings (src : List (String × List (String × JVal)))
    (b : List (String × List (String × JVal))) :
    List (String × List (String × JVal)) :=
  src.foldl (fun b' entry =>
    let container := (lookupA b' entry.1).getD []
    let container' := entry.2.foldl (fun c kv => setKey c kv.1 kv.2) container
    setKey b' entry.1 container') b

/-- `action.params && typeof action.params === "object" ? action.params :
undefined`: keep a query-parameters value only when it is an object (or
array); `null` is excluded by the truthiness conjunct. -/
def jsObjArg (p : JVal) : Option JVal :=
  match p with
  | .obj fs => some (.obj fs)
  | .arr xs => some (.arr xs)
  | _ => none

/-- `executePlayAction(action)`: `none`-typed or falsy actions do nothing;
`rest` actions issue exactly one HTTP request — `requestAny` to the bound
URL when it is non-empty after trimming, else `requestLocal` to the bound
path — with a JSON body only for POST, and report the response status; a
thrown request (oracle `none`) propagates (third component `true`);
`signalk` actions publish a delta and report, skipping empty keys. -/
def executePlayAction (rest : Eff → Option Int) (st : PluginState) (a : JVal) :
    PluginState × List Eff × Bool :=
  if !a.truthy || jsStrictEq (a.getF "type") (.str "none") then (st, [], false)
  else if jsStrictEq (a.getF "type") (.str "rest") then
    let method := jsToUpperCase (jsToString (jsOrVal (a.getF "method") (.str "GET")))
    let url := jsTrim (jsToString (jsOrVal (a.getF "url") (.str "")))
    let params : Option JVal := jsObjArg (a.getF "params")
    let body := a.getF "body"
    if url ≠ "" then
      let eff := Eff.restAny url method params
        (if method = "POST" then some (jsNullish body (.obj [])) else none)
      match rest eff with
      | some stat =>
        ({ st with reported := st.reported ++ [s!"Play REST {method} {url} -> {stat}"] },
         [eff], false)
      | none => (st, [eff], true)
    else
      let p := jsTrim (jsToString (jsOrVal (a.getF "path") (.str "/")))
      let eff := Eff.restLocal p method
        (if method = "POST" then some (jsNullish body (.obj [])) else none)
      match rest eff with
      | some stat =>
        ({ st with reported := st.reported ++ [s!"Play REST {method} {p} -> {stat}"] },
         [eff], false)
      | none => (st, [eff], true)
  else if jsStrictEq (a.getF "type") (.str "signalk") then
    let key := jsTrim (jsToString (jsOrVal (a.getF "key") (.str "")))
    if key = "" then (st, [], false)
    else ({ st with reported := st.reported ++ [s!"Play SK write: {key}"] }, [], false)
  else (st, [], false)

/-- One normalized settings item: a `(screenId, dashboardId)` pair and the
action object stored for it. -/
structure NormBinding where
  screenId : String
  dashboardId : String
  action : JVal

/-- `normalizeBindingFromSettings(item)`: `null` (`none`) when the item
lacks a non-empty (trimmed) `screenId`/`displayId` or `dashboardId`;
otherwise an action object of the declared type, defaulting `method` to
GET (uppercased), `params`/`body` to `{}`, reading fields either flat or
from the nested `action` object. -/
def normalizeBindingFromSettings (item : JVal) : Option NormBinding :=
  let screenId :=
    jsTrim (jsToString (jsOrVal (item.getF "screenId")
      (jsOrVal (item.getF "displayId") (.str ""))))
  let dashboardId := jsTrim (jsToString (jsOrVal (item.getF "dashboardId") (.str "")))
  if screenId = "" || dashboardId = "" then none
  else
    let actionType := jsToString (jsOrVal (item.getF "actionType")
      (jsOrVal ((item.getF "action").getF "type") (.str "none")))
    if actionType = "rest" then
      let url := jsTrim (jsToString (jsOrVal (item.getF "url")
        (jsOrVal ((item.getF "action").getF "url") (.str ""))))
      let method := jsToUpperCase (jsToString (jsOrVal (item.getF "method")
        (jsOrVal ((item.getF "action").getF "method") (.str "GET"))))
      let params :=
        match item.getF "params" with
        | .obj fs => JVal.obj fs
        | .arr xs => JVal.arr xs
        | _ =>
          match (item.getF "action").getF "params" with
          | .obj fs => JVal.obj fs
          | .arr xs => JVal.arr xs
          | _ => .obj []
      let body :=
        match item.getF "body" with
        | .undefinedV => jsNullish ((item.getF "action").getF "body") (.obj [])
        | v => v
      some ⟨screenId, dashboardId,
        .obj [("type", .str "rest"), ("url", .str url), ("method", .str method),
              ("params", params), ("body", body)]⟩
    else if actionType = "signalk" then
      let key := jsTrim (jsToString (jsOrVal (item.getF "key")
        (jsOrVal ((item.getF "action").getF "key") (.str "")))) 
      let value :=
        match item.getF "value" with
        | .undefinedV => (item.getF "action").getF "value"
        | v => v
      some ⟨screenId, dashboardId,
        .obj [("type", .str "signalk"), ("key", .str key), ("value", value)]⟩
    else
      some ⟨screenId, dashboardId, .obj [("type", .str "none")]⟩

/-- One item's contribution to the settings merge map: invalid items are
skipped; a valid item overwrites the entry for its
`(screenId, dashboardId)` pair. -/
def mergeStep (m : List (String × List (String × JVal))) (item : JVal) :
    List (String × List (String × JVal)) :=
  match normalizeBindingFromSettings item with
  | none => m
  | some n =>
    let sub := (lookupA m n.screenId).getD []
    setKey m n.screenId (setKey sub n.dashboardId n.action)

/-- `applyPlayBindingsFromSettings(playBindings)`: non-arrays are ignored;
valid items are collected into a merge map (later duplicates win) which
is then merged over the persisted bindings. -/
def applyPlayBindingsFromSettings (st : PluginState) (playBindings : JVal) :
    PluginState :=
  match playBindings with
  | .arr items =>
    { st with bindings := mergeBindings (items.foldl mergeStep []) st.bindings }
  | _ => st

/-- A classified input event as delivered to `handleKey`. -/
structure PEvt where
  typeName : String
  codeName : JVal
  code : Int
  action : String

/-- The key-name configuration captured by `plugin.start`. -/
structure PCfg where
  publishOn : String
  keyVolumeUp : String
  keyVolumeDown : String
  keyNext : String
  keyPrev : String
  keyPlay : String

/-- The `record` block of `handleKey`: update last-key telemetry when
`publishOn` matches the event action. -/
def recordKey (cfg : PCfg) (now : String) (st : PluginState) (evt : PEvt) :
    PluginState :=
  if cfg.publishOn = "any" || evt.action = cfg.publishOn then
    { st with lastKey := evt.codeName, lastKeyAt := .str now,
              lastKeyCode := .num evt.code }
  else st

/-- `handleKey(evt)` of the plugin implementation: record telemetry when
`publishOn` matches, act only on `down`; volume keys cycle
`selectedDisplayId` through the display ids with wrap-around; next/prev
keys compute `(cur + dir + len) % len` and POST it via
`kipSetActiveScreen`, swallowing any throw; the play key executes the
persisted binding for the dashboard at the current index. An initial
displays refresh is attempted when the display cache is empty, its
throw swallowed. -/
def handleKey (cfg : PCfg) (svc : KipSvc) (rest : Eff → Option Int)
    (now : String) (st : PluginState) (evt : PEvt) : PluginState × List Eff :=
  if evt.typeName ≠ "EV_KEY" then (st, [])
  else
    let st := recordKey cfg now st evt
    if evt.action ≠ "down" then (st, [])
    else
      let st := if st.kipDisplays.length = 0 then
          (refreshKipDisplaysAndDashboards svc st).1
        else st
      if jsStrictEq evt.codeName (.str cfg.keyVolumeUp) ||
         jsStrictEq evt.codeName (.str cfg.keyVolumeDown) then
        if st.kipDisplays.length = 0 then (st, [])
        else
          let ids := st.kipDisplays.map dId
          let cur : Int :=
            if st.selectedDisplayId.truthy && jsIncludes ids st.selectedDisplayId then
              jsIndexOf ids st.selectedDisplayId
            else 0
          let dir : Int := if jsStrictEq evt.codeName (.str cfg.keyVolumeUp) then 1 else -1
          let len : Int := (ids.length : Int)
          ({ st with selectedDisplayId := jsIndex ids (Int.tmod (cur + dir + len) len) }, [])
      else if jsStrictEq evt.codeName (.str cfg.keyNext) ||
              jsStrictEq evt.codeName (.str cfg.keyPrev) then
        if !st.selectedDisplayId.truthy then (st, [])
        else
          let dashboards :=
            (lookupA st.kipDashboardsByDisplay (jsToString st.selectedDisplayId)).getD []
          if dashboards.length = 0 then (st, [])
          else
            let curIdx :=
              (lookupA st.kipScreenIndexByDisplay (jsToString st.selectedDisplayId)).getD 0
            let dir : Int := if jsStrictEq evt.codeName (.str cfg.keyNext) then 1 else -1
            let len : Int := (dashboards.length : Int)
            let newIdx := Int.tmod (curIdx + dir + len) len
            let res := kipSetActiveScreen svc st (jsToString st.selectedDisplayId) newIdx
            (res.1, res.2.1)
      else if jsStrictEq evt.codeName (.str cfg.keyPlay) then
        if !st.selectedDisplayId.truthy then (st, [])
        else
          let dashboards :=
            (lookupA st.kipDashboardsByDisplay (jsToString st.selectedDisplayId)).getD []
          let idx :=
            (lookupA st.kipScreenIndexByDisplay (jsToString st.selectedDisplayId)).getD 0
          let dash := jsIndex dashboards idx
          if !dash.truthy then (st, [])
          else
            let res := executePlayAction rest st
              (getPlayAction st.bindings st.selectedDisplayId (dash.getF "id"))
            (res.1, res.2.1)
      else (st, [])

/-! ## Root implementation (`src/index.js`) -/

/-- `clamp(n, min, max)` = `Math.max(min, Math.min(max, n))`. -/
def clamp (n lo hi : Int) : Int := max lo (min hi n)

/-- The root implementation's `state` object (the option values and the
device path play no role in the modelled operations). `errors` holds the
`{t, m}` entries pushed by `setError`. -/
structure RootState where
  kipUuid : JVal
  displays : List JVal
  displayIds : List JVal
  activeDisplayId : JVal
  dashboardsByDisplay : List (String × JVal)
  activeDashboardByDisplay : List (String × Int)
  lastUpdated : JVal
  status : String
  errors : List (String × String)

/-- Oracle for the root implementation's external calls: `getKipDisplays`,
`getSelfPathValue` (both `none` on a throw) and `putSelfPathValue`
(`false` on a throw, whose error message is `putErrMsg`). -/
structure RootSvc where
  kipDisplays : Option JVal
  selfPath : String → Option JVal
  putOk : String → Int → Bool
  putErrMsg : String

/-- `deriveDisplayId(d, idx)`: first truthy of `id`, `uuid`, `displayId`,
`name`, else the positional fallback. -/
def deriveDisplayId (d : JVal) (idx : Nat) : JVal :=
  jsOrVal (d.getF "id") (jsOrVal (d.getF "uuid") (jsOrVal (d.getF "displayId")
    (jsOrVal (d.getF "name") (.str s!"display-{idx}"))))

/-- `ensureActiveDisplayValid()`: empty list forces `null`; a falsy or
non-member active id falls back to `displayIds[0] || null`. -/
def ensureActiveDisplayValid (st : RootState) : RootState :=
  if st.displayIds.length = 0 then { st with activeDisplayId := .null }
  else if !st.activeDisplayId.truthy || !(jsIncludes st.displayIds st.activeDisplayId) then
    { st with activeDisplayId := jsOrVal (jsIndex st.displayIds 0) .null }
  else st

/-- `nextDisplay(step)`: validate, then step the index of the active id by
`step` modulo the list length (JS `%` is truncated remainder). -/
def nextDisplay (st : RootState) (step : Int) : RootState :=
  if st.displayIds.length = 0 then { st with activeDisplayId := .null }
  else
    let st := ensureActiveDisplayValid st
    let i := jsIndexOf st.displayIds st.activeDisplayId
    let len : Int := (st.displayIds.length : Int)
    { st with activeDisplayId := jsIndex st.displayIds (Int.tmod (i + step + len) len) }

/-- `getDashboards(displayId)`: the cached value if it is an array, else
`null` (`none`). -/
def getDashboards (st : RootState) (displayId : JVal) : Option (List JVal) :=
  match lookupA st.dashboardsByDisplay (jsToString displayId) with
  | some (.arr xs) => some xs
  | _ => none

/-- `getActiveDashboardIndex(displayId)`: the cached index, defaulting to
`0`. The model's cache stores only integers, as every write in the
modelled operations is integer-guarded or produced by `clamp`. -/
def getActiveDashboardIndex (st : RootState) (displayId : JVal) : Int :=
  (lookupA st.activeDashboardByDisplay (jsToString displayId)).getD 0

/-- `writeActiveDashboard(displayId, newIndex)`: no-op without a truthy
`kipUuid` or a non-empty cached dashboard array; otherwise clamp the
index into `[0, length-1]`, PUT it to
`displays.<kipUuid>.activeScreen`, and only on success store it in
`activeDashboardByDisplay`. The middle component is the issued write
(path, index); the last component is `true` when the PUT threw. -/
def writeActiveDashboard (svc : RootSvc) (st : RootState) (displayId : JVal)
    (newIndex : Int) : RootState × Option (String × Int) × Bool :=
  if !st.kipUuid.truthy then (st, none, false)
  else
    match getDashboards st displayId with
    | none => (st, none, false)
    | some dashboards =>
      if dashboards.length = 0 then (st, none, false)
      else
        let idx := clamp newIndex 0 ((dashboards.length : Int) - 1)
        let u := jsToString st.kipUuid
        let skPath := s!"displays.{u}.activeScreen"
        if svc.putOk skPath idx then
          let cache := setKey st.activeDashboardByDisplay (jsToString displayId) idx
          ({ st with activeDashboardByDisplay := cache }, some (skPath, idx), false)
        else (st, some (skPath, idx), true)

/-- The `u` computed by `refreshKip` to infer the KIP UUID from the
fetched display entries. -/
def inferKipUuid (ds : List JVal) : JVal :=
  let a :=
    match ds.find? (fun d => (jsOrVal (d.getF "kipUuid") (d.getF "uuid")).truthy) with
    | some d => d.getF "kipUuid"
    | none => .undefinedV
  jsOrVal a
    (match ds.find? (fun d => (d.getF "KIP_UUID").truthy) with
     | some d => d.getF "KIP_UUID"
     | none => .undefinedV)

/-- `refreshKip(options)`: fetch the display list (a throw, `none`, leaves
the state unchanged and propagates), replace `displays`/`displayIds`,
infer `kipUuid` when unset, re-validate the active display and stamp
`lastUpdated`. -/
def refreshKip (svc : RootSvc) (now : String) (st : RootState) : Option RootState :=
  match svc.kipDisplays with
  | none => none
  | some displays =>
    let ds := match displays with | .arr xs => xs | _ => []
    let st := { st with displays := ds,
                        displayIds := ds.enum.map fun p => deriveDisplayId p.2 p.1 }
    let st := if !st.kipUuid.truthy then
        let u := inferKipUuid ds
        if u.truthy then { st with kipUuid := u } else st
      else st
    let st := ensureActiveDisplayValid st
    some { st with lastUpdated := .str now }

/-- Unwrapping of a Signal K leaf object:
`(x && typeof x === 'object' && 'value' in x) ? x.value : x`. -/
def unwrapSelfValue (v : JVal) : JVal :=
  match v with
  | .obj fs =>
    match lookupA fs "value" with
    | some w => w
    | none => .obj fs
  | v => v

/-- `refreshDashboards(options)`: no-op without a truthy `kipUuid`. The
dashboards fetch yields `null` on a throw; the active-screen fetch
yields `0` on a throw. When an active display is set, its dashboards
cache entry is overwritten with the fetched array, or with `null` when
the fetch failed or yielded a non-array; its index cache entry is
overwritten only by an integer active screen. -/
def refreshDashboards (svc : RootSvc) (st : RootState) : RootState :=
  if !st.kipUuid.truthy then st
  else
    let u := jsToString st.kipUuid
    let dashboards :=
      match svc.selfPath s!"displays.{u}.screenIndex" with
      | some v => v
      | none => .null
    let activeScreen :=
      match svc.selfPath s!"displays.{u}.activeScreen" with
      | some asv => unwrapSelfValue asv
      | none => .num 0
    let dashArray := unwrapSelfValue dashboards
    if st.activeDisplayId.truthy then
      let k := jsToString st.activeDisplayId
      let st1 := { st with dashboardsByDisplay :=
        match dashArray with
        | .arr xs => setKey st.dashboardsByDisplay k (.arr xs)
        | _ => setKey st.dashboardsByDisplay k .null }
      match activeScreen with
      | .num n =>
        { st1 with activeDashboardByDisplay := setKey st1.activeDashboardByDisplay k n }
      | _ => st1
    else st

/-- The configured key codes of the root implementation. -/
structure Keymap where
  volumeUp : Int
  volumeDown : Int
  next : Int
  prev : Int

/-- `onKeyEvent(ev, options)`: only `value === 1` (key down) acts; volume
keys cycle the active display; next/prev write the stepped dashboard
index for the active display via `writeActiveDashboard`. The middle
component is the issued write, the last is `true` when the PUT threw. -/
def onKeyEvent (svc : RootSvc) (km : Keymap) (st : RootState)
    (code value : Int) : RootState × Option (String × Int) × Bool :=
  if value ≠ 1 then (st, none, false)
  else if code = km.volumeUp then
    (ensureActiveDisplayValid (nextDisplay st 1), none, false)
  else if code = km.volumeDown then
    (ensureActiveDisplayValid (nextDisplay st (-1)), none, false)
  else if code = km.next then
    if !st.activeDisplayId.truthy then (st, none, false)
    else
      match getDashboards st st.activeDisplayId with
      | none => (st, none, false)
      | some dashboards =>
        if dashboards.length = 0 then (st, none, false)
        else
          writeActiveDashboard svc st st.activeDisplayId
            (getActiveDashboardIndex st st.activeDisplayId + 1)
  else if code = km.prev then
    if !st.activeDisplayId.truthy then (st, none, false)
    else
      match getDashboards st st.activeDisplayId with
      | none => (st, none, false)
      | some dashboards =>
        if dashboards.length = 0 then (st, none, false)
        else
          writeActiveDashboard svc st st.activeDisplayId
            (getActiveDashboardIndex st st.activeDisplayId - 1)
  else (st, none, false)

/-- `setError(err)`: push a `{t, m}` entry onto `state.errors` (unbounded). -/
def setError (st : RootState) (t m : String) : RootState :=
  { st with errors := st.errors ++ [(t, m)] }

/-- The `reader.on('key', ...)` wrapper: a throw escaping `onKeyEvent` is
caught and recorded via `setError`. -/
def onKeyEventCaught (svc : RootSvc) (km : Keymap) (now : String)
    (st : RootState) (code value : Int) : RootState × Option (String × Int) :=
  let res := onKeyEvent svc km st code value
  if res.2.2 then (setError res.1 now svc.putErrMsg, res.2.1)
  else (res.1, res.2.1)

/-- The `errors` field of the `GET /api/status` response:
`state.errors.slice(-10)`. -/
def apiStatusErrors (st : RootState) : List (String × String) :=
  st.errors.drop (st.errors.length - 10)

/-- The `PUT /display` handler: an explicit `null` clears the active
display; a member of `displayIds` is selected as is; anything else falls
back to `displayIds[0] || null`. The response reports the resulting
active display id. -/
def putDisplay (st : RootState) (body : JVal) : RootState × JVal :=
  let v := jsNullish (body.getF "value") (jsNullish (body.getF "displayId") .null)
  let st' :=
    match v with
    | .null => { st with activeDisplayId := .null }
    | v' =>
      if jsIncludes st.displayIds v' then { st with activeDisplayId := v' }
      else { st with activeDisplayId := jsOrVal (jsIndex st.displayIds 0) .null }
  (st', st'.activeDisplayId)

/-! ## Shared lemmas and example fixtures -/

theorem lookupA_setKey {α : Type} (m : List (String × α)) (k : String) (v : α)
    (k' : String) :
    lookupA (setKey m k v) k' = if k' = k then some v else lookupA m k' := by
  induction m with
  | nil =>
    by_cases h : k' = k
    · subst h; simp [setKey, lookupA]
    · have h' : ¬k = k' := fun hh => h hh.symm
      simp [setKey, lookupA, h, h']
  | cons hd tl ih =>
    obtain ⟨k0, v0⟩ := hd
    by_cases h0 : k0 = k
    · subst h0
      by_cases h : k' = k0
      · subst h; simp [setKey, lookupA]
      · have h' : ¬k0 = k' := fun hh => h hh.symm
        simp [setKey, lookupA, h, h']
    · by_cases h : k' = k0
      · subst h
        have hk : ¬k' = k := fun hh => h0 (hh ▸ rfl)
        simp [setKey, lookupA, h0, hk]
      · have h' : ¬k0 = k' := fun hh => h hh.symm
        simp [setKey, lookupA, h0, h', ih]

theorem mem_setKey {α : Type} {m : List (String × α)} {k : String} {v : α}
    {e : String × α} (h : e ∈ setKey m k v) : e = (k, v) ∨ e ∈ m := by
  induction m with
  | nil => simpa [setKey] using h
  | cons hd tl ih =>
    obtain ⟨k0, v0⟩ := hd
    by_cases h0 : k0 = k
    · subst h0
      simp [setKey] at h
      rcases h with h | h
      · exact Or.inl (by simp [h])
      · exact Or.inr (by simp [h])
    · simp [setKey, h0] at h
      rcases h with h | h
      · exact Or.inr (by simp [h])
      · rcases ih h with h' | h'
        · exact Or.inl h'
        · exact Or.inr (by simp [h'])

theorem jsStrictEq_eq {a b : JVal} (h : jsStrictEq a b = true) : a = b := by
  cases a <;> cases b <;> simp_all [jsStrictEq]

theorem jsIncludes_mem {xs : List JVal} {v : JVal} (h : jsIncludes xs v = true) :
    v ∈ xs := by
  rcases List.any_eq_true.mp h with ⟨x, hx, he⟩
  exact (jsStrictEq_eq he) ▸ hx

theorem jsIncludes_ne_nil {xs : List JVal} {v : JVal}
    (h : jsIncludes xs v = true) : xs ≠ [] := by
  intro hnil
  subst hnil
  simp [jsIncludes] at h

theorem recordKey_kipDisplays (cfg : PCfg) (now : String) (st : PluginState)
    (evt : PEvt) : (recordKey cfg now st evt).kipDisplays = st.kipDisplays := by
  unfold recordKey; split <;> rfl

theorem recordKey_selected (cfg : PCfg) (now : String) (st : PluginState)
    (evt : PEvt) :
    (recordKey cfg now st evt).selectedDisplayId = st.selectedDisplayId := by
  unfold recordKey; split <;> rfl

theorem recordKey_dashboards (cfg : PCfg) (now : String) (st : PluginState)
    (evt : PEvt) :
    (recordKey cfg now st evt).kipDashboardsByDisplay = st.kipDashboardsByDisplay := by
  unfold recordKey; split <;> rfl

theorem recordKey_screenIndex (cfg : PCfg) (now : String) (st : PluginState)
    (evt : PEvt) :
    (recordKey cfg now st evt).kipScreenIndexByDisplay = st.kipScreenIndexByDisplay := by
  unfold recordKey; split <;> rfl

theorem recordKey_bindings (cfg : PCfg) (now : String) (st : PluginState)
    (evt : PEvt) : (recordKey cfg now st evt).bindings = st.bindings := by
  unfold recordKey; split <;> rfl

theorem recordKey_reported (cfg : PCfg) (now : String) (st : PluginState)
    (evt : PEvt) : (recordKey cfg now st evt).reported = st.reported := by
  unfold recordKey; split <;> rfl

/-- A root-implementation state with one display `A` whose dashboard list
has three entries and whose cached index is `2` (the last one). -/
def exRoot : RootState :=
  { kipUuid := .str "u1", displays := [], displayIds := [.str "A"],
    activeDisplayId := .str "A",
    dashboardsByDisplay := [("A", JVal.arr [.str "d0", .str "d1", .str "d2"])],
    activeDashboardByDisplay := [("A", 2)],
    lastUpdated := .null, status := "", errors := [] }

/-- `exRoot` with displays `[A, B, C]`. -/
def exRoot3 : RootState :=
  { exRoot with displayIds := [.str "A", .str "B", .str "C"] }

/-- A root oracle whose PUT always succeeds and whose fetches throw. -/
def exSvcOk : RootSvc :=
  { kipDisplays := none, selfPath := fun _ => none,
    putOk := fun _ _ => true, putErrMsg := "put failed" }

/-- A root oracle whose every call throws. -/
def exSvcFail : RootSvc :=
  { kipDisplays := none, selfPath := fun _ => none,
    putOk := fun _ _ => false, putErrMsg := "put failed" }

/-- The default key codes of the root implementation. -/
def exKm : Keymap := { volumeUp := 115, volumeDown := 114, next := 163, prev := 165 }

/-- A KIP display entry with the given `displayId`. -/
def pDisp (s : String) : JVal := .obj [("displayId", .str s)]

/-- A KIP dashboard entry with the given `id`. -/
def pDash (s : String) : JVal := .obj [("id", .str s)]

/-- The action object persisted for a `rest` settings binding. -/
def restActionObj (u m : String) (p b : JVal) : JVal :=
  .obj [("type", .str "rest"), ("url", .str u), ("method", .str m),
        ("params", p), ("body", b)]

/-- A plugin-implementation state with displays `[A, B, C]`, selected
display `A` at screen index `1` of three dashboards, and a `rest`
binding persisted for `(A, dash2)`. -/
def exPlug : PluginState :=
  { lastKey := .null, lastKeyAt := .null, lastKeyCode := .null,
    kipDisplays := [pDisp "A", pDisp "B", pDisp "C"],
    kipDashboardsByDisplay := [("A", [pDash "dash1", pDash "dash2", pDash "dash3"])],
    kipScreenIndexByDisplay := [("A", 1)],
    selectedDisplayId := .str "A",
    bindings := [("A", [("dash2", restActionObj "http://x/y" "GET" (.obj []) (.obj []))])],
    reported := [] }

/-- The default plugin key configuration. -/
def exCfg : PCfg :=
  { publishOn := "down", keyVolumeUp := "KEY_VOLUMEUP", keyVolumeDown := "KEY_VOLUMEDOWN",
    keyNext := "KEY_NEXTSONG", keyPrev := "KEY_PREVIOUSSONG", keyPlay := "KEY_PLAYPAUSE" }

/-- A KIP oracle whose POST succeeds and `screenIndex` yields `2` for `A`. -/
def exKipOk : KipSvc :=
  { displays := none, dashboards := fun _ => none,
    screenIndex := fun s => if s = "A" then some (.num 2) else none,
    postOk := fun _ _ => true }

/-- A KIP oracle whose every call throws. -/
def exKipFail : KipSvc :=
  { displays := none, dashboards := fun _ => none, screenIndex := fun _ => none,
    postOk := fun _ _ => false }

/-- A key-down event for the named key. -/
def evDown (k : String) : PEvt :=
  { typeName := "EV_KEY", codeName := .str k, code := 7, action := "down" }

/-! ## Claim C7 -/

/-- Claim C7, counterexample: the claim says a display/dashboard list under
any of the keys `displays`, `items`, or `dashboards` normalizes to the
same array as the bare array; but `normalizeDisplayList` ignores a
`dashboards` envelope (and `normalizeDashboards` ignores a `displays`
envelope), yielding `[]` instead of the wrapped non-empty array. -/
theorem C7_counterexample :
    normalizeDisplayList (.obj [("dashboards", .arr [.num 1])]) = [] ∧
    normalizeDashboards (.obj [("displays", .arr [.num 1])]) = [] ∧
    ([JVal.num 1] : List JVal) ≠ [] :=
  ⟨rfl, rfl, by simp⟩

/-- Claim C7 (amended): normalization is envelope-insensitive per
endpoint — a display list under `displays` or `items`, a dashboard list
under `dashboards` or `items`, and a screen index under `screenIndex`,
`index` or `activeScreen` normalize to the same value as the bare
array/number; unrecognized shapes normalize to the empty list (for
lists) and to null (for the index). -/
theorem C7_normalization_amended :
    (∀ fs, lookupA fs "displays" = none → lookupA fs "items" = none →
      normalizeDisplayList (.obj fs) = []) ∧
    (∀ fs, lookupA fs "dashboards" = none → lookupA fs "items" = none →
      normalizeDashboards (.obj fs) = []) ∧
    (∀ fs, lookupA fs "screenIndex" = none → lookupA fs "index" = none →
      lookupA fs "activeScreen" = none → normalizeScreenIndex (.obj fs) = none) ∧
    (∀ xs : List JVal, normalizeDisplayList (.arr xs) = xs) ∧
    (∀ xs : List JVal, normalizeDisplayList (.obj [("displays", .arr xs)]) = xs) ∧
    (∀ xs : List JVal, normalizeDisplayList (.obj [("items", .arr xs)]) = xs) ∧
    (∀ xs : List JVal, normalizeDashboards (.arr xs) = xs) ∧
    (∀ xs : List JVal, normalizeDashboards (.obj [("dashboards", .arr xs)]) = xs) ∧
    (∀ xs : List JVal, normalizeDashboards (.obj [("items", .arr xs)]) = xs) ∧
    (∀ n : Int, normalizeScreenIndex (.num n) = some n) ∧
    (∀ n : Int, normalizeScreenIndex (.obj [("screenIndex", .num n)]) = some n) ∧
    (∀ n : Int, normalizeScreenIndex (.obj [("index", .num n)]) = some n) ∧
    (∀ n : Int, normalizeScreenIndex (.obj [("activeScreen", .num n)]) = some n) ∧
    normalizeDisplayList .null = [] ∧ normalizeDisplayList (.num 7) = [] ∧
    normalizeDashboards .null = [] ∧
    normalizeScreenIndex .null = none ∧ normalizeScreenIndex (.str "x") = none := by
  refine ⟨?_, ?_, ?_, fun xs => rfl, fun xs => rfl, fun xs => rfl, fun xs => rfl,
    fun xs => rfl, fun xs => rfl, fun n => rfl, fun n => rfl, fun n => rfl,
    fun n => rfl, rfl, rfl, rfl, rfl, rfl⟩
  · intro fs h1 h2
    simp [normalizeDisplayList, JVal.truthy, JVal.getF, h1, h2]
  · intro fs h1 h2
    simp [normalizeDashboards, JVal.truthy, JVal.getF, h1, h2]
  · intro fs h1 h2 h3
    simp [normalizeScreenIndex, JVal.truthy, JVal.getF, h1, h2, h3]

/-- Claim C7, witness: the amended theorem evaluated on concrete
payloads with no recognized key. -/
theorem C7_witness :
    normalizeDisplayList (.obj [("z", .num 1)]) = [] ∧
    normalizeDashboards (.obj [("z", .num 1)]) = [] ∧
    normalizeScreenIndex (.obj [("z", .num 1)]) = none :=
  ⟨C7_normalization_amended.1 [("z", .num 1)] rfl rfl,
   C7_normalization_amended.2.1 [("z", .num 1)] rfl rfl,
   C7_normalization_amended.2.2.1 [("z", .num 1)] rfl rfl rfl⟩

/-! ## Claim C8 -/

/-- The root state after `n` recorded errors, starting from none. -/
def errAfter (n : Nat) : RootState :=
  (List.range n).foldl (fun s i => setError s "t" (toString i)) exRoot

/-- Claim C8, counterexample: after 11 recorded errors the engine state
retains all 11 entries, more than the 10 entries the status snapshot
exposes, so the state does not keep "at most a fixed number N" of them. -/
theorem C8_counterexample :
    (errAfter 11).errors.length = 11 ∧ (apiStatusErrors (errAfter 11)).length = 10 :=
  ⟨rfl, rfl⟩

/-- Claim C8 (amended): `setError` appends every error to the state
unboundedly; only the status snapshot (`GET /api/status`) is bounded,
exposing exactly the `min(length, 10)` most recent entries (a suffix of
the state's error sequence). -/
theorem C8_error_log_amended :
    (∀ st t m, (setError st t m).errors = st.errors ++ [(t, m)]) ∧
    (∀ st, (apiStatusErrors st).length = min st.errors.length 10) ∧
    (∀ st, st.errors = st.errors.take (st.errors.length - 10) ++ apiStatusErrors st) := by
  refine ⟨fun st t m => rfl, fun st => ?_, fun st => ?_⟩
  · simp [apiStatusErrors]
    omega
  · exact (List.take_append_drop _ _).symm

/-! ## Claim C10 -/

/-- Claim C10 (confirmed): `PUT /display` distinguishes an explicit null
from an invalid id — null clears the active display even when displays
exist; a member of `displayIds` is selected; any other non-null value
falls back to the first display (when truthy) or to null when the list
is empty; and the response always reports the resulting active id. -/
theorem C10_put_display (st : RootState) (body : JVal) :
    (jsNullish (body.getF "value") (jsNullish (body.getF "displayId") .null) = .null →
      (putDisplay st body).1.activeDisplayId = .null) ∧
    (∀ v, jsNullish (body.getF "value") (jsNullish (body.getF "displayId") .null) = v →
      v ≠ .null → jsIncludes st.displayIds v = true →
      (putDisplay st body).1.activeDisplayId = v) ∧
    (∀ v, jsNullish (body.getF "value") (jsNullish (body.getF "displayId") .null) = v →
      v ≠ .null → jsIncludes st.displayIds v = false →
      ((st.displayIds = [] → (putDisplay st body).1.activeDisplayId = .null) ∧
       (∀ d rest, st.displayIds = d :: rest → d.truthy = true →
         (putDisplay st body).1.activeDisplayId = d))) ∧
    (putDisplay st body).2 = (putDisplay st body).1.activeDisplayId := by
  refine ⟨?_, ?_, ?_, rfl⟩
  · intro h
    simp only [putDisplay, h]
  · intro v hv hne hinc
    cases v <;> first
      | exact absurd rfl hne
      | simp only [putDisplay, hv, hinc, if_true]
  · intro v hv hne hinc
    refine ⟨?_, ?_⟩
    · intro hnil
      rw [hnil] at hinc
      cases v <;> first
        | exact absurd rfl hne
        | simp [putDisplay, hv, hinc, hnil, jsOrVal, jsIndex, JVal.truthy]
    · intro d rest hcons htr
      rw [hcons] at hinc
      cases v <;> first
        | exact absurd rfl hne
        | simp [putDisplay, hv, hinc, hcons, jsOrVal, jsIndex, htr]

/-- Claim C10, witness: the three request shapes evaluated on the
`[A, B, C]` state. -/
theorem C10_witness :
    (putDisplay exRoot3 (.obj [("value", .null)])).1.activeDisplayId = .null ∧
    (putDisplay exRoot3 (.obj [("value", .str "B")])).1.activeDisplayId = .str "B" ∧
    (putDisplay exRoot3 (.obj [("value", .str "Z")])).1.activeDisplayId = .str "A" ∧
    (putDisplay exRoot3 (.obj [("value", .str "Z")])).2 =
      (putDisplay exRoot3 (.obj [("value", .str "Z")])).1.activeDisplayId :=
  ⟨(C10_put_display exRoot3 (.obj [("value", .null)])).1 rfl,
   (C10_put_display exRoot3 (.obj [("value", .str "B")])).2.1 (.str "B") rfl (by simp) rfl,
   ((C10_put_display exRoot3 (.obj [("value", .str "Z")])).2.2.1 (.str "Z") rfl (by simp) rfl).2
     (.str "A") [.str "B", .str "C"] rfl rfl,
   (C10_put_display exRoot3 (.obj [("value", .str "Z")])).2.2.2⟩

/-! ## Claim C5 -/

/-- Claim C5 (confirmed): VOLUME_UP / VOLUME_DOWN key-down events step the
active display id +1 / -1 cyclically through the display ids, wrapping
at both ends (with `[A,B,C]` and active `A`, VOLUME_DOWN selects `C` and
a second VOLUME_DOWN selects `B`), in both implementations, and the
event is a no-op on the selection when the display list is empty. -/
theorem C5_volume_cycles :
    (∀ st step, st.activeDisplayId.truthy = true →
      jsIncludes st.displayIds st.activeDisplayId = true →
      (nextDisplay st step).activeDisplayId =
        jsIndex st.displayIds
          (Int.tmod (jsIndexOf st.displayIds st.activeDisplayId + step +
            (st.displayIds.length : Int)) (st.displayIds.length : Int))) ∧
    (∀ svc km st, (onKeyEvent svc km st km.volumeUp 1).1 =
      ensureActiveDisplayValid (nextDisplay st 1)) ∧
    (∀ svc km st, km.volumeDown ≠ km.volumeUp →
      (onKeyEvent svc km st km.volumeDown 1).1 =
        ensureActiveDisplayValid (nextDisplay st (-1))) ∧
    (onKeyEvent exSvcOk exKm exRoot3 114 1).1.activeDisplayId = .str "C" ∧
    (onKeyEvent exSvcOk exKm
      (onKeyEvent exSvcOk exKm exRoot3 114 1).1 114 1).1.activeDisplayId = .str "B" ∧
    (onKeyEvent exSvcOk exKm exRoot3 115 1).1.activeDisplayId = .str "B" ∧
    (∀ svc km st, st.displayIds = [] → st.activeDisplayId = .null →
      (onKeyEvent svc km st km.volumeUp 1).1 = st) ∧
    (∀ cfg svc rest now st evt,
      evt.typeName = "EV_KEY" → evt.action = "down" →
      evt.codeName = .str cfg.keyVolumeUp →
      st.kipDisplays ≠ [] →
      st.selectedDisplayId.truthy = true →
      jsIncludes (st.kipDisplays.map dId) st.selectedDisplayId = true →
      (handleKey cfg svc rest now st evt).1.selectedDisplayId =
        jsIndex (st.kipDisplays.map dId)
          (Int.tmod (jsIndexOf (st.kipDisplays.map dId) st.selectedDisplayId + 1 +
            (st.kipDisplays.length : Int)) (st.kipDisplays.length : Int))) ∧
    (∀ cfg svc rest now st evt,
      evt.typeName = "EV_KEY" → evt.action = "down" →
      evt.codeName = .str cfg.keyVolumeDown →
      cfg.keyVolumeDown ≠ cfg.keyVolumeUp →
      st.kipDisplays ≠ [] →
      st.selectedDisplayId.truthy = true →
      jsIncludes (st.kipDisplays.map dId) st.selectedDisplayId = true →
      (handleKey cfg svc rest now st evt).1.selectedDisplayId =
        jsIndex (st.kipDisplays.map dId)
          (Int.tmod (jsIndexOf (st.kipDisplays.map dId) st.selectedDisplayId - 1 +
            (st.kipDisplays.length : Int)) (st.kipDisplays.length : Int))) ∧
    (handleKey exCfg exKipOk (fun _ => none) "t" exPlug
      (evDown "KEY_VOLUMEDOWN")).1.selectedDisplayId = .str "C" ∧
    (handleKey exCfg exKipOk (fun _ => none) "t"
      (handleKey exCfg exKipOk (fun _ => none) "t" exPlug
        (evDown "KEY_VOLUMEDOWN")).1
      (evDown "KEY_VOLUMEDOWN")).1.selectedDisplayId = .str "B" ∧
    (∀ cfg svc rest now st evt,
      evt.typeName = "EV_KEY" → evt.action = "down" →
      (evt.codeName = .str cfg.keyVolumeUp ∨ evt.codeName = .str cfg.keyVolumeDown) →
      st.kipDisplays = [] → svc.displays = none →
      (handleKey cfg svc rest now st evt).1.selectedDisplayId = st.selectedDisplayId ∧
      (handleKey cfg svc rest now st evt).2 = []) := by
  refine ⟨?_, ?_, ?_, rfl, rfl, rfl, ?_, ?_, ?_, rfl, rfl, ?_⟩
  · intro st step htr hinc
    have hne := jsIncludes_ne_nil hinc
    have hlen : ¬st.displayIds.length = 0 := by
      simpa [List.length_eq_zero] using hne
    have hens : ensureActiveDisplayValid st = st := by
      simp [ensureActiveDisplayValid, hlen, htr, hinc]
    simp [nextDisplay, hlen, hens]
  · intro svc km st
    simp [onKeyEvent]
  · intro svc km st hne
    simp [onKeyEvent, hne]
  · intro svc km st hnil hact
    cases st
    simp_all [onKeyEvent, nextDisplay, ensureActiveDisplayValid]
  · intro cfg svc rest now st evt hty hact hcode hne htr hinc
    have hlen : ¬st.kipDisplays.length = 0 := by
      simpa [List.length_eq_zero] using hne
    simp [handleKey, hty, hact, hcode, hlen, htr, hinc, jsStrictEq,
      recordKey_kipDisplays, recordKey_selected, List.length_map]
  · intro cfg svc rest now st evt hty hact hcode hkne hne htr hinc
    have hlen : ¬st.kipDisplays.length = 0 := by
      simpa [List.length_eq_zero] using hne
    simp [handleKey, hty, hact, hcode, hkne, hlen, htr, hinc, jsStrictEq,
      recordKey_kipDisplays, recordKey_selected, List.length_map, sub_eq_add_neg]
  · intro cfg svc rest now st evt hty hact hcode hnil hsvc
    rcases hcode with hcode | hcode <;>
      simp [handleKey, refreshKipDisplaysAndDashboards, hty, hact, hcode,
        hnil, hsvc, jsStrictEq, recordKey_kipDisplays, recordKey_selected]

/-- Claim C5, witness: the cyclic-step conjuncts instantiated on the
`[A,B,C]` fixtures. -/
theorem C5_witness :
    (nextDisplay exRoot3 (-1)).activeDisplayId =
      jsIndex exRoot3.displayIds
        (Int.tmod (jsIndexOf exRoot3.displayIds exRoot3.activeDisplayId - 1 +
          (exRoot3.displayIds.length : Int)) (exRoot3.displayIds.length : Int)) ∧
    (handleKey exCfg exKipOk (fun _ => none) "t" exPlug
      (evDown "KEY_VOLUMEUP")).1.selectedDisplayId =
      jsIndex (exPlug.kipDisplays.map dId)
        (Int.tmod (jsIndexOf (exPlug.kipDisplays.map dId) exPlug.selectedDisplayId + 1 +
          (exPlug.kipDisplays.length : Int)) (exPlug.kipDisplays.length : Int)) :=
  ⟨C5_volume_cycles.1 exRoot3 (-1) rfl rfl,
   C5_volume_cycles.2.2.2.2.2.2.2.1 exCfg exKipOk (fun _ => none) "t" exPlug
     (evDown "KEY_VOLUMEUP") rfl rfl rfl (by simp [exPlug]) rfl rfl⟩

/-! ## Claim C1 -/

/-- Claim C1, counterexample: with cached dashboards `[d0,d1,d2]` for the
active display and current index 2, a NEXT key-down in the root
implementation writes and caches index 2 again (`clamp(2+1, 0, 2)`),
not the claimed `(2+1) mod 3 = 0` — there is no wrap-around. -/
theorem C1_counterexample :
    getActiveDashboardIndex (onKeyEvent exSvcOk exKm exRoot 163 1).1 (.str "A") = 2 ∧
    (onKeyEvent exSvcOk exKm exRoot 163 1).2.1 = some ("displays.u1.activeScreen", 2) ∧
    (2 : Int) ≠ Int.tmod (2 + 1) 3 :=
  ⟨rfl, rfl, by decide⟩

/-- Claim C1 (amended): on a NEXT (resp. PREV) key-down with a truthy
active display, a truthy `kipUuid`, and a non-empty cached dashboard
array of length L at cached index i (default 0 if absent), the root
implementation issues a write of `clamp(i+1, 0, L-1)` (resp.
`clamp(i-1, 0, L-1)`) — saturating at the ends instead of wrapping — and
caches exactly that index only when the write succeeds: on a failing
write the state is left unchanged and the failure propagates. Both
events are a no-op (state unchanged, no write issued) when there is no
truthy active display or the cached dashboard list is missing or empty. -/
theorem C1_next_prev_amended :
    (∀ svc km st,
      km.next ≠ km.volumeUp → km.next ≠ km.volumeDown →
      st.activeDisplayId.truthy = true →
      st.kipUuid.truthy = true →
      ∀ dashboards, getDashboards st st.activeDisplayId = some dashboards →
      ¬dashboards.length = 0 →
      svc.putOk (s!"displays.{jsToString st.kipUuid}.activeScreen")
        (clamp (getActiveDashboardIndex st st.activeDisplayId + 1) 0
          ((dashboards.length : Int) - 1)) = true →
      (onKeyEvent svc km st km.next 1).2.1 =
        some (s!"displays.{jsToString st.kipUuid}.activeScreen",
          clamp (getActiveDashboardIndex st st.activeDisplayId + 1) 0
            ((dashboards.length : Int) - 1)) ∧
      lookupA (onKeyEvent svc km st km.next 1).1.activeDashboardByDisplay
          (jsToString st.activeDisplayId) =
        some (clamp (getActiveDashboardIndex st st.activeDisplayId + 1) 0
          ((dashboards.length : Int) - 1))) ∧
    (∀ svc km st,
      km.prev ≠ km.volumeUp → km.prev ≠ km.volumeDown → km.prev ≠ km.next →
      st.activeDisplayId.truthy = true →
      st.kipUuid.truthy = true →
      ∀ dashboards, getDashboards st st.activeDisplayId = some dashboards →
      ¬dashboards.length = 0 →
      svc.putOk (s!"displays.{jsToString st.kipUuid}.activeScreen")
        (clamp (getActiveDashboardIndex st st.activeDisplayId - 1) 0
          ((dashboards.length : Int) - 1)) = true →
      (onKeyEvent svc km st km.prev 1).2.1 =
        some (s!"displays.{jsToString st.kipUuid}.activeScreen",
          clamp (getActiveDashboardIndex st st.activeDisplayId - 1) 0
            ((dashboards.length : Int) - 1)) ∧
      lookupA (onKeyEvent svc km st km.prev 1).1.activeDashboardByDisplay
          (jsToString st.activeDisplayId) =
        some (clamp (getActiveDashboardIndex st st.activeDisplayId - 1) 0
          ((dashboards.length : Int) - 1))) ∧
    (∀ svc km st,
      km.next ≠ km.volumeUp → km.next ≠ km.volumeDown →
      st.activeDisplayId.truthy = false →
      onKeyEvent svc km st km.next 1 = (st, none, false)) ∧
    (∀ svc km st,
      km.next ≠ km.volumeUp → km.next ≠ km.volumeDown →
      getDashboards st st.activeDisplayId = none →
      onKeyEvent svc km st km.next 1 = (st, none, false)) ∧
    (∀ svc km st,
      km.next ≠ km.volumeUp → km.next ≠ km.volumeDown →
      getDashboards st st.activeDisplayId = some [] →
      onKeyEvent svc km st km.next 1 = (st, none, false)) ∧
    (∀ svc km st,
      km.prev ≠ km.volumeUp → km.prev ≠ km.volumeDown → km.prev ≠ km.next →
      st.activeDisplayId.truthy = false →
      onKeyEvent svc km st km.prev 1 = (st, none, false)) ∧
    (∀ svc km st,
      km.prev ≠ km.volumeUp → km.prev ≠ km.volumeDown → km.prev ≠ km.next →
      getDashboards st st.activeDisplayId = none →
      onKeyEvent svc km st km.prev 1 = (st, none, false)) ∧
    (∀ svc km st,
      km.prev ≠ km.volumeUp → km.prev ≠ km.volumeDown → km.prev ≠ km.next →
      getDashboards st st.activeDisplayId = some [] →
      onKeyEvent svc km st km.prev 1 = (st, none, false)) ∧
    (∀ svc km st,
      km.next ≠ km.volumeUp → km.next ≠ km.volumeDown →
      st.activeDisplayId.truthy = true →
      st.kipUuid.truthy = true →
      ∀ dashboards, getDashboards st st.activeDisplayId = some dashboards →
      ¬dashboards.length = 0 →
      svc.putOk (s!"displays.{jsToString st.kipUuid}.activeScreen")
        (clamp (getActiveDashboardIndex st st.activeDisplayId + 1) 0
          ((dashboards.length : Int) - 1)) = false →
      (onKeyEvent svc km st km.next 1).1 = st ∧
      (onKeyEvent svc km st km.next 1).2.1 =
        some (s!"displays.{jsToString st.kipUuid}.activeScreen",
          clamp (getActiveDashboardIndex st st.activeDisplayId + 1) 0
            ((dashboards.length : Int) - 1)) ∧
      (onKeyEvent svc km st km.next 1).2.2 = true) ∧
    (∀ svc km st,
      km.prev ≠ km.volumeUp → km.prev ≠ km.volumeDown → km.prev ≠ km.next →
      st.activeDisplayId.truthy = true →
      st.kipUuid.truthy = true →
      ∀ dashboards, getDashboards st st.activeDisplayId = some dashboards →
      ¬dashboards.length = 0 →
      svc.putOk (s!"displays.{jsToString st.kipUuid}.activeScreen")
        (clamp (getActiveDashboardIndex st st.activeDisplayId - 1) 0
          ((dashboards.length : Int) - 1)) = false →
      (onKeyEvent svc km st km.prev 1).1 = st ∧
      (onKeyEvent svc km st km.prev 1).2.1 =
        some (s!"displays.{jsToString st.kipUuid}.activeScreen",
          clamp (getActiveDashboardIndex st st.activeDisplayId - 1) 0
            ((dashboards.length : Int) - 1)) ∧
      (onKeyEvent svc km st km.prev 1).2.2 = true) := by
  refine ⟨?_, ?_, ?_, ?_, ?_, ?_, ?_, ?_, ?_, ?_⟩
  · intro svc km st h1 h2 htr hu dashboards hdash hlen hput
    simp [onKeyEvent, writeActiveDashboard, h1, h2, htr, hu, hdash, hlen, hput,
      lookupA_setKey]
  · intro svc km st h1 h2 h3 htr hu dashboards hdash hlen hput
    simp [onKeyEvent, writeActiveDashboard, h1, h2, h3, htr, hu, hdash, hlen, hput,
      lookupA_setKey]
  · intro svc km st h1 h2 htr
    simp [onKeyEvent, h1, h2, htr]
  · intro svc km st h1 h2 hdash
    by_cases htr : st.activeDisplayId.truthy = true <;>
      simp_all [onKeyEvent, writeActiveDashboard]
  · intro svc km st h1 h2 hdash
    by_cases htr : st.activeDisplayId.truthy = true <;>
      simp_all [onKeyEvent, writeActiveDashboard]
  · intro svc km st h1 h2 h3 htr
    simp [onKeyEvent, h1, h2, h3, htr]
  · intro svc km st h1 h2 h3 hdash
    by_cases htr : st.activeDisplayId.truthy = true <;>
      simp_all [onKeyEvent, writeActiveDashboard]
  · intro svc km st h1 h2 h3 hdash
    by_cases htr : st.activeDisplayId.truthy = true <;>
      simp_all [onKeyEvent, writeActiveDashboard]
  · intro svc km st h1 h2 htr hu dashboards hdash hlen hput
    simp [onKeyEvent, writeActiveDashboard, h1, h2, htr, hu, hdash, hlen, hput]
  · intro svc km st h1 h2 h3 htr hu dashboards hdash hlen hput
    simp [onKeyEvent, writeActiveDashboard, h1, h2, h3, htr, hu, hdash, hlen, hput]

/-- Claim C1, witness: on the `exRoot` state (index 2 of 3), PREV writes
and caches `clamp(1, 0, 2) = 1`; PREV with no active display is a
no-op; NEXT with a failing PUT issues the write but leaves the state
unchanged — all evaluated through the amended theorem. -/
theorem C1_witness :
    ((onKeyEvent exSvcOk exKm exRoot 165 1).2.1 =
      some ("displays.u1.activeScreen",
        clamp (getActiveDashboardIndex exRoot exRoot.activeDisplayId - 1) 0
          ((([JVal.str "d0", .str "d1", .str "d2"]).length : Int) - 1)) ∧
    lookupA (onKeyEvent exSvcOk exKm exRoot 165 1).1.activeDashboardByDisplay
        (jsToString exRoot.activeDisplayId) =
      some (clamp (getActiveDashboardIndex exRoot exRoot.activeDisplayId - 1) 0
        ((([JVal.str "d0", .str "d1", .str "d2"]).length : Int) - 1))) ∧
    onKeyEvent exSvcOk exKm { exRoot with activeDisplayId := .null } 165 1 =
      ({ exRoot with activeDisplayId := .null }, none, false) ∧
    ((onKeyEvent exSvcFail exKm exRoot 163 1).1 = exRoot ∧
      (onKeyEvent exSvcFail exKm exRoot 163 1).2.1 =
        some ("displays.u1.activeScreen",
          clamp (getActiveDashboardIndex exRoot exRoot.activeDisplayId + 1) 0
            ((([JVal.str "d0", .str "d1", .str "d2"]).length : Int) - 1)) ∧
      (onKeyEvent exSvcFail exKm exRoot 163 1).2.2 = true) :=
  ⟨C1_next_prev_amended.2.1 exSvcOk exKm exRoot (by decide) (by decide) (by decide)
    rfl rfl [JVal.str "d0", .str "d1", .str "d2"] rfl (by simp) rfl,
   C1_next_prev_amended.2.2.2.2.2.1 exSvcOk exKm
     { exRoot with activeDisplayId := .null } (by decide) (by decide) (by decide) rfl,
   C1_next_prev_amended.2.2.2.2.2.2.2.2.1 exSvcFail exKm exRoot (by decide)
     (by decide) rfl rfl [JVal.str "d0", .str "d1", .str "d2"] rfl (by simp) rfl⟩

/-! ## Claim C2 -/

/-- Claim C2, counterexample: in the plugin implementation a NEXT-triggered
write that fails (`postOk` is `false` for every request of `exKipFail`)
leaves the cached index unchanged but records nothing at all — the
`catch (_) {}` swallows the error, so no error is reported, contrary to
the claim. -/
theorem C2_counterexample :
    (handleKey exCfg exKipFail (fun _ => none) "t" exPlug
      (evDown "KEY_NEXTSONG")).2 = [.postActiveScreen "A" 2] ∧
    exKipFail.postOk "A" 2 = false ∧
    (handleKey exCfg exKipFail (fun _ => none) "t" exPlug
      (evDown "KEY_NEXTSONG")).1.kipScreenIndexByDisplay =
      exPlug.kipScreenIndexByDisplay ∧
    (handleKey exCfg exKipFail (fun _ => none) "t" exPlug
      (evDown "KEY_NEXTSONG")).1.reported = exPlug.reported :=
  ⟨rfl, rfl, rfl, rfl⟩

/-- Claim C2 (amended): in both implementations the write to the active-
index endpoint is issued before any cache update and the cached index is
updated only after a successful write — on failure the cached index is
left unchanged. The error handling differs: the root implementation
records the failure via `setError`, while the plugin implementation
swallows it silently (no error is recorded). -/
theorem C2_write_then_cache_amended :
    (∀ svc km now st,
      km.next ≠ km.volumeUp → km.next ≠ km.volumeDown →
      st.activeDisplayId.truthy = true →
      st.kipUuid.truthy = true →
      ∀ dashboards, getDashboards st st.activeDisplayId = some dashboards →
      ¬dashboards.length = 0 →
      svc.putOk (s!"displays.{jsToString st.kipUuid}.activeScreen")
        (clamp (getActiveDashboardIndex st st.activeDisplayId + 1) 0
          ((dashboards.length : Int) - 1)) = false →
      (onKeyEventCaught svc km now st km.next 1).2 =
        some (s!"displays.{jsToString st.kipUuid}.activeScreen",
          clamp (getActiveDashboardIndex st st.activeDisplayId + 1) 0
            ((dashboards.length : Int) - 1)) ∧
      (onKeyEventCaught svc km now st km.next 1).1.activeDashboardByDisplay =
        st.activeDashboardByDisplay ∧
      (onKeyEventCaught svc km now st km.next 1).1.errors =
        st.errors ++ [(now, svc.putErrMsg)]) ∧
    (∀ svc km now st,
      km.prev ≠ km.volumeUp → km.prev ≠ km.volumeDown → km.prev ≠ km.next →
      st.activeDisplayId.truthy = true →
      st.kipUuid.truthy = true →
      ∀ dashboards, getDashboards st st.activeDisplayId = some dashboards →
      ¬dashboards.length = 0 →
      svc.putOk (s!"displays.{jsToString st.kipUuid}.activeScreen")
        (clamp (getActiveDashboardIndex st st.activeDisplayId - 1) 0
          ((dashboards.length : Int) - 1)) = false →
      (onKeyEventCaught svc km now st km.prev 1).2 =
        some (s!"displays.{jsToString st.kipUuid}.activeScreen",
          clamp (getActiveDashboardIndex st st.activeDisplayId - 1) 0
            ((dashboards.length : Int) - 1)) ∧
      (onKeyEventCaught svc km now st km.prev 1).1.activeDashboardByDisplay =
        st.activeDashboardByDisplay ∧
      (onKeyEventCaught svc km now st km.prev 1).1.errors =
        st.errors ++ [(now, svc.putErrMsg)]) ∧
    (∀ cfg svc rest now st evt,
      evt.typeName = "EV_KEY" → evt.action = "down" →
      evt.codeName = .str cfg.keyNext →
      cfg.keyNext ≠ cfg.keyVolumeUp → cfg.keyNext ≠ cfg.keyVolumeDown →
      st.kipDisplays ≠ [] →
      st.selectedDisplayId.truthy = true →
      ∀ dashboards,
        lookupA st.kipDashboardsByDisplay (jsToString st.selectedDisplayId) =
          some dashboards →
      ¬dashboards.length = 0 →
      svc.postOk (jsToString st.selectedDisplayId)
        (Int.tmod ((lookupA st.kipScreenIndexByDisplay
            (jsToString st.selectedDisplayId)).getD 0 + 1 +
          (dashboards.length : Int)) (dashboards.length : Int)) = false →
      (handleKey cfg svc rest now st evt).2 =
        [.postActiveScreen (jsToString st.selectedDisplayId)
          (Int.tmod ((lookupA st.kipScreenIndexByDisplay
              (jsToString st.selectedDisplayId)).getD 0 + 1 +
            (dashboards.length : Int)) (dashboards.length : Int))] ∧
      (handleKey cfg svc rest now st evt).1.kipScreenIndexByDisplay =
        st.kipScreenIndexByDisplay ∧
      (handleKey cfg svc rest now st evt).1.reported = st.reported) ∧
    (∀ cfg svc rest now st evt,
      evt.typeName = "EV_KEY" → evt.action = "down" →
      evt.codeName = .str cfg.keyPrev →
      cfg.keyPrev ≠ cfg.keyVolumeUp → cfg.keyPrev ≠ cfg.keyVolumeDown →
      cfg.keyPrev ≠ cfg.keyNext →
      st.kipDisplays ≠ [] →
      st.selectedDisplayId.truthy = true →
      ∀ dashboards,
        lookupA st.kipDashboardsByDisplay (jsToString st.selectedDisplayId) =
          some dashboards →
      ¬dashboards.length = 0 →
      svc.postOk (jsToString st.selectedDisplayId)
        (Int.tmod ((lookupA st.kipScreenIndexByDisplay
            (jsToString st.selectedDisplayId)).getD 0 - 1 +
          (dashboards.length : Int)) (dashboards.length : Int)) = false →
      (handleKey cfg svc rest now st evt).2 =
        [.postActiveScreen (jsToString st.selectedDisplayId)
          (Int.tmod ((lookupA st.kipScreenIndexByDisplay
              (jsToString st.selectedDisplayId)).getD 0 - 1 +
            (dashboards.length : Int)) (dashboards.length : Int))] ∧
      (handleKey cfg svc rest now st evt).1.kipScreenIndexByDisplay =
        st.kipScreenIndexByDisplay ∧
      (handleKey cfg svc rest now st evt).1.reported = st.reported) := by
  refine ⟨?_, ?_, ?_, ?_⟩
  · intro svc km now st h1 h2 htr hu dashboards hdash hlen hput
    simp [onKeyEventCaught, onKeyEvent, writeActiveDashboard, setError,
      h1, h2, htr, hu, hdash, hlen, hput]
  · intro svc km now st h1 h2 h3 htr hu dashboards hdash hlen hput
    simp [onKeyEventCaught, onKeyEvent, writeActiveDashboard, setError,
      h1, h2, h3, htr, hu, hdash, hlen, hput]
  · intro cfg svc rest now st evt hty hact hcode hk1 hk2 hne htr dashboards hdash hlen hpost
    have hlen0 : ¬st.kipDisplays.length = 0 := by
      simpa [List.length_eq_zero] using hne
    simp [handleKey, kipSetActiveScreen, hty, hact, hcode, hk1, hk2, hlen0, htr,
      hdash, hlen, hpost, jsStrictEq, recordKey_kipDisplays, recordKey_selected,
      recordKey_dashboards, recordKey_screenIndex, recordKey_reported]
  · intro cfg svc rest now st evt hty hact hcode hk1 hk2 hk3 hne htr dashboards hdash hlen hpost
    have hlen0 : ¬st.kipDisplays.length = 0 := by
      simpa [List.length_eq_zero] using hne
    rw [sub_eq_add_neg] at hpost
    simp [handleKey, kipSetActiveScreen, hty, hact, hcode, hk1, hk2, hk3, hlen0,
      htr, hdash, hlen, hpost, jsStrictEq, sub_eq_add_neg,
      recordKey_kipDisplays, recordKey_selected, recordKey_dashboards,
      recordKey_screenIndex, recordKey_reported]

/-- Claim C2, witness: the four failing-write conjuncts evaluated on the
fixtures — root NEXT and PREV (PUT fails, the index stays 2 and the
error is recorded) and plugin NEXT and PREV (POST fails, the index
cache and the report log are unchanged). -/
theorem C2_witness :
    ((onKeyEventCaught exSvcFail exKm "t0" exRoot 163 1).1.activeDashboardByDisplay =
        exRoot.activeDashboardByDisplay ∧
      (onKeyEventCaught exSvcFail exKm "t0" exRoot 163 1).1.errors =
        exRoot.errors ++ [("t0", exSvcFail.putErrMsg)]) ∧
    ((onKeyEventCaught exSvcFail exKm "t0" exRoot 165 1).1.activeDashboardByDisplay =
        exRoot.activeDashboardByDisplay ∧
      (onKeyEventCaught exSvcFail exKm "t0" exRoot 165 1).1.errors =
        exRoot.errors ++ [("t0", exSvcFail.putErrMsg)]) ∧
    ((handleKey exCfg exKipFail (fun _ => none) "t" exPlug
        (evDown "KEY_NEXTSONG")).1.kipScreenIndexByDisplay =
        exPlug.kipScreenIndexByDisplay ∧
      (handleKey exCfg exKipFail (fun _ => none) "t" exPlug
        (evDown "KEY_NEXTSONG")).1.reported = exPlug.reported) ∧
    ((handleKey exCfg exKipFail (fun _ => none) "t" exPlug
        (evDown "KEY_PREVIOUSSONG")).1.kipScreenIndexByDisplay =
        exPlug.kipScreenIndexByDisplay ∧
      (handleKey exCfg exKipFail (fun _ => none) "t" exPlug
        (evDown "KEY_PREVIOUSSONG")).1.reported = exPlug.reported) :=
  ⟨⟨(C2_write_then_cache_amended.1 exSvcFail exKm "t0" exRoot (by decide) (by decide)
      rfl rfl [JVal.str "d0", .str "d1", .str "d2"] rfl (by simp) rfl).2.1,
    (C2_write_then_cache_amended.1 exSvcFail exKm "t0" exRoot (by decide) (by decide)
      rfl rfl [JVal.str "d0", .str "d1", .str "d2"] rfl (by simp) rfl).2.2⟩,
   ⟨(C2_write_then_cache_amended.2.1 exSvcFail exKm "t0" exRoot (by decide)
      (by decide) (by decide) rfl rfl [JVal.str "d0", .str "d1", .str "d2"] rfl
      (by simp) rfl).2.1,
    (C2_write_then_cache_amended.2.1 exSvcFail exKm "t0" exRoot (by decide)
      (by decide) (by decide) rfl rfl [JVal.str "d0", .str "d1", .str "d2"] rfl
      (by simp) rfl).2.2⟩,
   ⟨(C2_write_then_cache_amended.2.2.1 exCfg exKipFail (fun _ => none) "t" exPlug
      (evDown "KEY_NEXTSONG") rfl rfl rfl (by decide) (by decide) (by simp [exPlug])
      rfl [pDash "dash1", pDash "dash2", pDash "dash3"] rfl (by simp) rfl).2.1,
    (C2_write_then_cache_amended.2.2.1 exCfg exKipFail (fun _ => none) "t" exPlug
      (evDown "KEY_NEXTSONG") rfl rfl rfl (by decide) (by decide) (by simp [exPlug])
      rfl [pDash "dash1", pDash "dash2", pDash "dash3"] rfl (by simp) rfl).2.2⟩,
   ⟨(C2_write_then_cache_amended.2.2.2 exCfg exKipFail (fun _ => none) "t" exPlug
      (evDown "KEY_PREVIOUSSONG") rfl rfl rfl (by decide) (by decide) (by decide)
      (by simp [exPlug]) rfl [pDash "dash1", pDash "dash2", pDash "dash3"] rfl
      (by simp) rfl).2.1,
    (C2_write_then_cache_amended.2.2.2 exCfg exKipFail (fun _ => none) "t" exPlug
      (evDown "KEY_PREVIOUSSONG") rfl rfl rfl (by decide) (by decide) (by decide)
      (by simp [exPlug]) rfl [pDash "dash1", pDash "dash2", pDash "dash3"] rfl
      (by simp) rfl).2.2⟩⟩

/-! ## Claim C4 -/

theorem dashFold_no_match (svc : KipSvc) (kd : List JVal) (key : String) :
    ∀ m0 : List (String × List JVal), (∀ d ∈ kd, dKey d ≠ key) →
    lookupA (kd.foldl (dashFetchStep svc) m0) key = lookupA m0 key := by
  induction kd with
  | nil => intro m0 _; rfl
  | cons hd tl ih =>
    intro m0 h
    have hhd : dKey hd ≠ key := h hd (by simp)
    have hne : ¬key = dKey hd := fun hh => hhd hh.symm
    have htl : ∀ d ∈ tl, dKey d ≠ key := fun d hm => h d (by simp [hm])
    have hstep : lookupA (dashFetchStep svc m0 hd) key = lookupA m0 key := by
      unfold dashFetchStep
      cases svc.dashboards (dKey hd) <;> simp [lookupA_setKey, hne]
    rw [List.foldl_cons, ih _ htl, hstep]

theorem dashFold_last_none (svc : KipSvc) (kd : List JVal) (key : String) :
    ∀ m0 : List (String × List JVal), (∃ d ∈ kd, dKey d = key) →
    svc.dashboards key = none →
    lookupA (kd.foldl (dashFetchStep svc) m0) key = some [] := by
  induction kd with
  | nil => intro m0 h _; simp at h
  | cons hd tl ih =>
    intro m0 hex hsvc
    by_cases htl : ∃ d ∈ tl, dKey d = key
    · simpa [List.foldl_cons] using ih _ htl hsvc
    · have hhd : dKey hd = key := by
        rcases hex with ⟨d, hmem, hdk⟩
        rcases List.mem_cons.mp hmem with h | h
        · exact h ▸ hdk
        · exact absurd ⟨d, h, hdk⟩ htl
      have htl' : ∀ d ∈ tl, dKey d ≠ key := by
        intro d hm he
        exact htl ⟨d, hm, he⟩
      have hstep : lookupA (dashFetchStep svc m0 hd) key = some [] := by
        unfold dashFetchStep
        rw [hhd, hsvc]
        simp [lookupA_setKey]
      rw [List.foldl_cons, dashFold_no_match svc tl key _ htl', hstep]

theorem dashFold_agree (svc1 svc2 : KipSvc) (kd : List JVal) (key : String)
    (hsvc : svc1.dashboards key = svc2.dashboards key) :
    ∀ m1 m2, lookupA m1 key = lookupA m2 key →
    lookupA (kd.foldl (dashFetchStep svc1) m1) key =
      lookupA (kd.foldl (dashFetchStep svc2) m2) key := by
  induction kd with
  | nil => intro m1 m2 h; exact h
  | cons hd tl ih =>
    intro m1 m2 h
    rw [List.foldl_cons, List.foldl_cons]
    apply ih
    by_cases hk : key = dKey hd
    · unfold dashFetchStep
      rw [← hk, hsvc]
      cases hv : svc2.dashboards key <;> simp [lookupA_setKey]
    · unfold dashFetchStep
      cases svc1.dashboards (dKey hd) <;> cases svc2.dashboards (dKey hd) <;>
        simp [lookupA_setKey, hk, h]

theorem screenFold_retain (svc : KipSvc) (kd : List JVal) (key : String) (n : Int) :
    ∀ m0 : List (String × Int), (∀ d ∈ kd, svc.screenIndex (dKey d) = none) →
    lookupA m0 key = some n →
    lookupA (kd.foldl (screenFetchStep svc) m0) key = some n := by
  induction kd with
  | nil => intro m0 _ h; exact h
  | cons hd tl ih =>
    intro m0 hall hm
    have hhd := hall hd (by simp)
    have htl : ∀ d ∈ tl, svc.screenIndex (dKey d) = none :=
      fun d hmem => hall d (by simp [hmem])
    have hstep : lookupA (screenFetchStep svc m0 hd) key = some n := by
      unfold screenFetchStep
      rw [hhd]
      cases hex : lookupA m0 (dKey hd) with
      | some _ => simpa using hm
      | none =>
        have hne : ¬key = dKey hd := by
          intro he
          rw [he] at hm
          rw [hm] at hex
          cases hex
        simp [lookupA_setKey, hne, hm]
    rw [List.foldl_cons, ih _ htl hstep]

/-- Claim C4, counterexample: with a cached dashboard array for the active
display, a failing dashboards fetch does not retain it — the root
implementation overwrites the cache entry with `null`. -/
theorem C4_counterexample :
    lookupA exRoot.dashboardsByDisplay "A" =
      some (.arr [.str "d0", .str "d1", .str "d2"]) ∧
    exSvcFail.selfPath "displays.u1.screenIndex" = none ∧
    lookupA (refreshDashboards exSvcFail exRoot).dashboardsByDisplay "A" =
      some .null ∧
    JVal.null ≠ .arr [.str "d0", .str "d1", .str "d2"] :=
  ⟨rfl, rfl, rfl, by simp⟩

/-- Claim C4 (amended): per-display isolation holds, but retention does
not. On a failing dashboards fetch the root implementation overwrites
the active display's cache entry with `null` (other entries untouched),
and the plugin implementation overwrites the failing display's entry
with `[]`; a display's cache entry depends only on its own fetch result,
so one display's failure cannot affect another's entry. Only the
plugin's screen-index cache retains its previous value on a failing
tick. -/
theorem C4_refresh_failure_amended :
    (∀ svc st,
      st.kipUuid.truthy = true →
      st.activeDisplayId.truthy = true →
      svc.selfPath (s!"displays.{jsToString st.kipUuid}.screenIndex") = none →
      lookupA (refreshDashboards svc st).dashboardsByDisplay
        (jsToString st.activeDisplayId) = some .null ∧
      ∀ k', ¬k' = jsToString st.activeDisplayId →
        lookupA (refreshDashboards svc st).dashboardsByDisplay k' =
          lookupA st.dashboardsByDisplay k') ∧
    (∀ svc st payload d,
      svc.displays = some payload →
      d ∈ normalizeDisplayList payload →
      svc.dashboards (dKey d) = none →
      lookupA (refreshKipDisplaysAndDashboards svc st).1.kipDashboardsByDisplay
        (dKey d) = some []) ∧
    (∀ svc1 svc2 st payload key,
      svc1.displays = some payload → svc2.displays = some payload →
      svc1.dashboards key = svc2.dashboards key →
      lookupA (refreshKipDisplaysAndDashboards svc1 st).1.kipDashboardsByDisplay
          key =
        lookupA (refreshKipDisplaysAndDashboards svc2 st).1.kipDashboardsByDisplay
          key) ∧
    (∀ svc st key n,
      (∀ d ∈ st.kipDisplays, svc.screenIndex (dKey d) = none) →
      lookupA st.kipScreenIndexByDisplay key = some n →
      lookupA (refreshKipScreenIndexes svc st).kipScreenIndexByDisplay key =
        some n) := by
  refine ⟨?_, ?_, ?_, ?_⟩
  · intro svc st hu htr hfetch
    have hnull : unwrapSelfValue .null = .null := rfl
    constructor
    · cases hv : svc.selfPath (s!"displays.{jsToString st.kipUuid}.activeScreen") with
      | none =>
        simp [refreshDashboards, hu, htr, hfetch, hv, hnull, lookupA_setKey]
      | some asv =>
        cases hw : unwrapSelfValue asv <;>
          simp [refreshDashboards, hu, htr, hfetch, hv, hw, hnull, lookupA_setKey]
    · intro k' hk'
      cases hv : svc.selfPath (s!"displays.{jsToString st.kipUuid}.activeScreen") with
      | none =>
        simp [refreshDashboards, hu, htr, hfetch, hv, hnull, lookupA_setKey, hk']
      | some asv =>
        cases hw : unwrapSelfValue asv <;>
          simp [refreshDashboards, hu, htr, hfetch, hv, hw, hnull, lookupA_setKey,
            hk']
  · intro svc st payload d hdisp hmem hfail
    have := dashFold_last_none svc (normalizeDisplayList payload) (dKey d) []
      ⟨d, hmem, rfl⟩ hfail
    simpa [refreshKipDisplaysAndDashboards, hdisp] using this
  · intro svc1 svc2 st payload key h1 h2 hag
    have := dashFold_agree svc1 svc2 (normalizeDisplayList payload) key hag [] [] rfl
    simpa [refreshKipDisplaysAndDashboards, h1, h2] using this
  · intro svc st key n hall hm
    exact screenFold_retain svc st.kipDisplays key n st.kipScreenIndexByDisplay hall hm

/-- Claim C4, witness: the amended conjuncts evaluated on the fixtures —
the root overwrite with `null`, the plugin overwrite with `[]`, equal
entries under oracles agreeing on one display, and screen-index
retention on a failing tick. -/
theorem C4_witness :
    lookupA (refreshDashboards exSvcFail exRoot).dashboardsByDisplay
      (jsToString exRoot.activeDisplayId) = some .null ∧
    lookupA (refreshKipDisplaysAndDashboards
        { exKipFail with displays := some (.arr [pDisp "A"]) }
        exPlug).1.kipDashboardsByDisplay (dKey (pDisp "A")) = some [] ∧
    lookupA (refreshKipScreenIndexes exKipFail exPlug).kipScreenIndexByDisplay
      "A" = some 1 :=
  ⟨((C4_refresh_failure_amended.1 exSvcFail exRoot rfl rfl rfl).1),
   (C4_refresh_failure_amended.2.1
     { exKipFail with displays := some (.arr [pDisp "A"]) } exPlug
     (.arr [pDisp "A"]) (pDisp "A") rfl (by simp [normalizeDisplayList]) rfl),
   (C4_refresh_failure_amended.2.2.2 exKipFail exPlug "A" 1
     (by intro d hd; rfl) rfl)⟩

/-! ## Claim C3 -/

/-- The claimed invariant of the root engine state: a non-null active
display id is a member of the display-id list. -/
def RootInv (st : RootState) : Prop :=
  st.activeDisplayId = .null ∨ st.activeDisplayId ∈ st.displayIds

theorem RootInv_of_fields {st st' : RootState} (h : RootInv st)
    (ha : st'.activeDisplayId = st.activeDisplayId)
    (hd : st'.displayIds = st.displayIds) : RootInv st' := by
  unfold RootInv at h ⊢
  rw [ha, hd]
  exact h

theorem ensure_establishes (st : RootState) : RootInv (ensureActiveDisplayValid st) := by
  unfold ensureActiveDisplayValid RootInv
  split
  · exact Or.inl rfl
  · rename_i hlen
    split
    · cases hls : st.displayIds with
      | nil => exact absurd (by simp [hls]) hlen
      | cons d rest =>
        simp only [hls, jsIndex, jsOrVal]
        by_cases hd : d.truthy <;> simp [hd]
    · rename_i hcond
      right
      have hinc : jsIncludes st.displayIds st.activeDisplayId = true := by
        rcases Bool.not_eq_true _ ▸ hcond with h
        by_cases h2 : jsIncludes st.displayIds st.activeDisplayId = true
        · exact h2
        · exact absurd (by simp [Bool.not_eq_true] at h2; simp [h2]) hcond
      exact jsIncludes_mem hinc

theorem writeActiveDashboard_frame (svc : RootSvc) (st : RootState)
    (displayId : JVal) (n : Int) :
    (writeActiveDashboard svc st displayId n).1.activeDisplayId =
        st.activeDisplayId ∧
      (writeActiveDashboard svc st displayId n).1.displayIds = st.displayIds := by
  unfold writeActiveDashboard
  split
  · exact ⟨rfl, rfl⟩
  · split
    · exact ⟨rfl, rfl⟩
    · split
      · exact ⟨rfl, rfl⟩
      · dsimp only
        split <;> exact ⟨rfl, rfl⟩

/-- Claim C3, counterexample: in the plugin implementation a refresh whose
display list comes back empty leaves the stale `selectedDisplayId` in
place — non-null yet a member of no display — instead of resetting it
to null as the claim requires. -/
theorem C3_counterexample :
    (refreshKipDisplaysAndDashboards { exKipOk with displays := some (.arr []) }
      exPlug).1.selectedDisplayId = .str "A" ∧
    (refreshKipDisplaysAndDashboards { exKipOk with displays := some (.arr []) }
      exPlug).1.kipDisplays = [] ∧
    (JVal.str "A") ≠ .null :=
  ⟨rfl, rfl, by simp⟩

/-- Claim C3 (amended): the root implementation maintains the invariant —
`ensureActiveDisplayValid` establishes it, every refresh and the
`PUT /display` operation leave it established, and key handling
preserves it. In the plugin implementation a refresh that yields a
non-empty display list establishes membership of `selectedDisplayId`,
but a refresh that yields an empty list leaves a stale
`selectedDisplayId` unchanged rather than resetting it to null; it is
corrected only by a later non-empty refresh. -/
theorem C3_active_membership_amended :
    (∀ st, RootInv (ensureActiveDisplayValid st)) ∧
    (∀ svc now st st', refreshKip svc now st = some st' → RootInv st') ∧
    (∀ svc km st code value, RootInv st →
      RootInv (onKeyEvent svc km st code value).1) ∧
    (∀ st body, RootInv (putDisplay st body).1) ∧
    (∀ svc st payload, svc.displays = some payload →
      normalizeDisplayList payload ≠ [] →
      (refreshKipDisplaysAndDashboards svc st).1.selectedDisplayId ∈
        (refreshKipDisplaysAndDashboards svc st).1.kipDisplays.map dId) ∧
    (∀ svc st payload, svc.displays = some payload →
      normalizeDisplayList payload = [] →
      (refreshKipDisplaysAndDashboards svc st).1.selectedDisplayId =
        st.selectedDisplayId) := by
  refine ⟨ensure_establishes, ?_, ?_, ?_, ?_, ?_⟩
  · intro svc now st st' h
    rcases hdisp : svc.kipDisplays with _ | displays
    · simp [refreshKip, hdisp] at h
    · simp only [refreshKip, hdisp] at h
      rw [Option.some_inj] at h
      subst h
      exact RootInv_of_fields (ensure_establishes _) rfl rfl
  · intro svc km st code value h
    unfold onKeyEvent
    split
    · exact h
    · split
      · exact ensure_establishes _
      · split
        · exact ensure_establishes _
        · split
          · split
            · exact h
            · split
              · exact h
              · split
                · exact h
                · have hf := writeActiveDashboard_frame svc st st.activeDisplayId
                    (getActiveDashboardIndex st st.activeDisplayId + 1)
                  unfold RootInv at h ⊢
                  rw [hf.1, hf.2]
                  exact h
          · split
            · split
              · exact h
              · split
                · exact h
                · split
                  · exact h
                  · have hf := writeActiveDashboard_frame svc st st.activeDisplayId
                      (getActiveDashboardIndex st st.activeDisplayId - 1)
                    unfold RootInv at h ⊢
                    rw [hf.1, hf.2]
                    exact h
            · exact h
  · intro st body
    unfold putDisplay RootInv
    cases hv : jsNullish (body.getF "value") (jsNullish (body.getF "displayId") .null) with
    | null => exact Or.inl rfl
    | _ =>
      dsimp only
      split
      · rename_i hinc
        exact Or.inr (jsIncludes_mem hinc)
      · cases hls : st.displayIds with
        | nil => exact Or.inl (by simp [hls, jsIndex, jsOrVal, JVal.truthy])
        | cons d rest =>
          by_cases hd : d.truthy = true
          · exact Or.inr (by simp [hls, jsIndex, jsOrVal, hd])
          · exact Or.inl (by simp [hls, jsIndex, jsOrVal, hd])
  · intro svc st payload hdisp hne
    rcases hkd : normalizeDisplayList payload with _ | ⟨d, rest⟩
    · exact absurd hkd hne
    · simp only [refreshKipDisplaysAndDashboards, hdisp, hkd]
      by_cases htr : st.selectedDisplayId.truthy = true
      · simp only [htr, Bool.not_true, Bool.false_eq_true, if_false]
        by_cases hany : ((d :: rest).any fun x => jsStrictEq (dId x) st.selectedDisplayId) = true
        · simp only [htr, hany, Bool.not_true, Bool.and_false, Bool.false_eq_true, if_false]
          rcases List.any_eq_true.mp hany with ⟨x, hx, he⟩
          exact (jsStrictEq_eq he) ▸ List.mem_map_of_mem dId hx
        · simp only [Bool.not_eq_true] at hany
          simp only [htr, hany, Bool.not_false, Bool.and_true, if_true]
          exact List.mem_map_of_mem dId (by simp)
      · simp only [Bool.not_eq_true] at htr
        simp only [htr, Bool.not_false, if_true]
        by_cases hany : ((d :: rest).any fun x => jsStrictEq (dId x) (dId d)) = true <;>
          by_cases hdt : (dId d).truthy = true <;>
            simp [htr, hany, hdt, List.mem_map_of_mem dId (List.mem_cons_self d rest)]
  · intro svc st payload hdisp hnil
    simp [refreshKipDisplaysAndDashboards, hdisp, hnil]

/-- Claim C3, witness: the amended theorem evaluated on concrete states —
a non-member active id is corrected by `ensureActiveDisplayValid`, key
handling and `PUT /display` preserve the invariant, and a non-empty
plugin refresh re-establishes membership. -/
theorem C3_witness :
    RootInv (ensureActiveDisplayValid { exRoot3 with activeDisplayId := .str "Z" }) ∧
    RootInv (onKeyEvent exSvcOk exKm exRoot3 163 1).1 ∧
    RootInv (putDisplay exRoot3 (.obj [("value", .str "Z")])).1 ∧
    (refreshKipDisplaysAndDashboards
        { exKipFail with displays := some (.arr [pDisp "B"]) }
        exPlug).1.selectedDisplayId ∈
      (refreshKipDisplaysAndDashboards
        { exKipFail with displays := some (.arr [pDisp "B"]) }
        exPlug).1.kipDisplays.map dId :=
  ⟨C3_active_membership_amended.1 _,
   C3_active_membership_amended.2.2.1 exSvcOk exKm exRoot3 163 1
     (Or.inr (by simp [exRoot3, exRoot])),
   C3_active_membership_amended.2.2.2.1 exRoot3 (.obj [("value", .str "Z")]),
   C3_active_membership_amended.2.2.2.2.1
     { exKipFail with displays := some (.arr [pDisp "B"]) } exPlug
     (.arr [pDisp "B"]) rfl (by simp [normalizeDisplayList])⟩

/-! ## Claim C6 -/

/-- Claim C6 (confirmed): on a PLAY key-down the plugin implementation
looks up the persisted binding for (selected display id, id of the
dashboard at the current index). A persisted `rest` binding with a
non-empty trimmed URL issues exactly one HTTP request — with the bound
URL (trimmed), method (defaulted and uppercased), params (kept only
when object-shaped) and body (only for POST) — and reports the response
status; when the binding is `none`-kind the event issues no request and
reports nothing; a missing binding (no entry for the display or the
dashboard) yields the `none` action. -/
theorem C6_play_binding (cfg : PCfg) (svc : KipSvc) (rest : Eff → Option Int)
    (now : String) (st : PluginState) (evt : PEvt)
    (hty : evt.typeName = "EV_KEY") (hact : evt.action = "down")
    (hcode : evt.codeName = .str cfg.keyPlay)
    (h1 : cfg.keyPlay ≠ cfg.keyVolumeUp) (h2 : cfg.keyPlay ≠ cfg.keyVolumeDown)
    (h3 : cfg.keyPlay ≠ cfg.keyNext) (h4 : cfg.keyPlay ≠ cfg.keyPrev)
    (hne : st.kipDisplays ≠ [])
    (htr : st.selectedDisplayId.truthy = true)
    (dashboards : List JVal)
    (hdash : lookupA st.kipDashboardsByDisplay (jsToString st.selectedDisplayId) =
      some dashboards)
    (dash : JVal)
    (hidx : jsIndex dashboards ((lookupA st.kipScreenIndexByDisplay
      (jsToString st.selectedDisplayId)).getD 0) = dash)
    (hdtr : dash.truthy = true) :
    (∀ u m p b stat,
      getPlayAction st.bindings st.selectedDisplayId (dash.getF "id") =
        restActionObj u m p b →
      jsTrim u ≠ "" → m ≠ "" →
      rest (Eff.restAny (jsTrim u) (jsToUpperCase m) (jsObjArg p)
        (if jsToUpperCase m = "POST" then some (jsNullish b (.obj [])) else none)) =
        some stat →
      (handleKey cfg svc rest now st evt).2 =
        [Eff.restAny (jsTrim u) (jsToUpperCase m) (jsObjArg p)
          (if jsToUpperCase m = "POST" then some (jsNullish b (.obj [])) else none)] ∧
      (handleKey cfg svc rest now st evt).1.reported =
        st.reported ++ [s!"Play REST {jsToUpperCase m} {jsTrim u} -> {stat}"]) ∧
    (jsStrictEq ((getPlayAction st.bindings st.selectedDisplayId
        (dash.getF "id")).getF "type") (.str "none") = true →
      (handleKey cfg svc rest now st evt).2 = [] ∧
      (handleKey cfg svc rest now st evt).1.reported = st.reported) ∧
    (∀ bs did dsh, lookupA bs (jsToString did) = none →
      getPlayAction bs did dsh = noneAction) ∧
    (∀ bs did dsh mp, lookupA bs (jsToString did) = some mp →
      lookupA mp (jsToString dsh) = none →
      getPlayAction bs did dsh = noneAction) := by
  have hlen0 : ¬st.kipDisplays.length = 0 := by
    simpa [List.length_eq_zero] using hne
  refine ⟨?_, ?_, ?_, ?_⟩
  · intro u m p b stat hbind hu hm hrest
    have hmt : (JVal.str m).truthy = true := by simp [JVal.truthy, hm]
    have hut : u ≠ "" := by
      intro h0
      exact hu (by rw [h0]; rfl)
    have hutt : (JVal.str u).truthy = true := by simp [JVal.truthy, hut]
    have ha1 : (restActionObj u m p b).truthy = true := rfl
    have ha2 : (restActionObj u m p b).getF "type" = .str "rest" := rfl
    have ha3 : (restActionObj u m p b).getF "method" = .str m := rfl
    have ha4 : (restActionObj u m p b).getF "url" = .str u := rfl
    have ha5 : (restActionObj u m p b).getF "params" = p := rfl
    have ha6 : (restActionObj u m p b).getF "body" = b := rfl
    have hs1 : jsStrictEq (.str "rest") (.str "none") = false := by decide
    have hs2 : jsStrictEq (.str "rest") (.str "rest") = true := by decide
    have hor1 : jsOrVal (.str m) (.str "GET") = .str m := by simp [jsOrVal, hmt]
    have hor2 : jsOrVal (.str u) (.str "") = .str u := by simp [jsOrVal, hutt]
    have hj1 : jsToString (JVal.str m) = m := rfl
    have hj2 : jsToString (JVal.str u) = u := rfl
    simp [handleKey, executePlayAction, hty, hact, hcode, h1, h2, h3, h4,
      hlen0, htr, hdash, hidx, hdtr, hbind, ha1, ha2, ha3, ha4, ha5, ha6,
      hs1, hs2, hor1, hor2, hj1, hj2, hu, hrest, jsStrictEq,
      recordKey_kipDisplays, recordKey_selected, recordKey_dashboards,
      recordKey_screenIndex, recordKey_bindings, recordKey_reported]
  · intro hnone
    have hk1 : jsStrictEq (.str cfg.keyPlay) (.str cfg.keyVolumeUp) = false := by
      simp [jsStrictEq, h1]
    have hk2 : jsStrictEq (.str cfg.keyPlay) (.str cfg.keyVolumeDown) = false := by
      simp [jsStrictEq, h2]
    have hk3 : jsStrictEq (.str cfg.keyPlay) (.str cfg.keyNext) = false := by
      simp [jsStrictEq, h3]
    have hk4 : jsStrictEq (.str cfg.keyPlay) (.str cfg.keyPrev) = false := by
      simp [jsStrictEq, h4]
    have hkp : jsStrictEq (.str cfg.keyPlay) (.str cfg.keyPlay) = true := by
      simp [jsStrictEq]
    have hcond : (!(getPlayAction st.bindings st.selectedDisplayId
        (dash.getF "id")).truthy ||
        jsStrictEq ((getPlayAction st.bindings st.selectedDisplayId
          (dash.getF "id")).getF "type") (.str "none")) = true := by
      rw [hnone]
      simp
    simp [handleKey, executePlayAction, hty, hact, hcode, hk1, hk2, hk3, hk4,
      hkp, hlen0, htr, hdash, hidx, hdtr, hcond,
      recordKey_kipDisplays, recordKey_selected, recordKey_dashboards,
      recordKey_screenIndex, recordKey_bindings, recordKey_reported]
  · intro bs did dsh h
    simp [getPlayAction, h]
  · intro bs did dsh mp h1' h2'
    simp [getPlayAction, h1', h2']

/-- Claim C6, witness: pressing PLAY on `exPlug` (selected display `A`,
index 1, dashboard `dash2`, a `rest` binding to `http://x/y`) issues
exactly that one request and reports its status; with the index moved to
a dashboard without a binding, nothing is issued. -/
theorem C6_witness :
    ((handleKey exCfg exKipOk (fun _ => some 200) "t" exPlug
        (evDown "KEY_PLAYPAUSE")).2 =
      [Eff.restAny (jsTrim "http://x/y") (jsToUpperCase "GET")
        (jsObjArg (.obj []))
        (if jsToUpperCase "GET" = "POST" then some (jsNullish (.obj []) (.obj []))
         else none)] ∧
      (handleKey exCfg exKipOk (fun _ => some 200) "t" exPlug
        (evDown "KEY_PLAYPAUSE")).1.reported =
        exPlug.reported ++ ["Play REST GET http://x/y -> 200"]) ∧
    ((handleKey exCfg exKipOk (fun _ => some 200) "t"
        { exPlug with kipScreenIndexByDisplay := [("A", 0)] }
        (evDown "KEY_PLAYPAUSE")).2 = [] ∧
      (handleKey exCfg exKipOk (fun _ => some 200) "t"
        { exPlug with kipScreenIndexByDisplay := [("A", 0)] }
        (evDown "KEY_PLAYPAUSE")).1.reported =
        ({ exPlug with kipScreenIndexByDisplay := [("A", 0)] } : PluginState).reported) :=
  ⟨(C6_play_binding exCfg exKipOk (fun _ => some 200) "t" exPlug
      (evDown "KEY_PLAYPAUSE") rfl rfl rfl (by decide) (by decide) (by decide)
      (by decide) (by simp [exPlug]) rfl
      [pDash "dash1", pDash "dash2", pDash "dash3"] rfl (pDash "dash2") rfl rfl).1
      "http://x/y" "GET" (.obj []) (.obj []) 200 rfl (by decide) (by decide) rfl,
   (C6_play_binding exCfg exKipOk (fun _ => some 200) "t"
      { exPlug with kipScreenIndexByDisplay := [("A", 0)] }
      (evDown "KEY_PLAYPAUSE") rfl rfl rfl (by decide) (by decide) (by decide)
      (by decide) (by simp [exPlug]) rfl
      [pDash "dash1", pDash "dash2", pDash "dash3"] rfl (pDash "dash1") rfl rfl).2.1
      rfl⟩

/-! ## Claim C9 -/

/-- Pair-level lookup into the persisted bindings. -/
def lookupBinding (b : List (String × List (String × JVal))) (D dash : String) :
    Option JVal :=
  match lookupA b D with
  | none => none
  | some m => lookupA m dash

theorem lookupA_mem {α : Type} {m : List (String × α)} {k : String} {v : α}
    (h : lookupA m k = some v) : (k, v) ∈ m := by
  induction m with
  | nil => cases h
  | cons hd tl ih =>
    obtain ⟨k0, v0⟩ := hd
    by_cases h0 : k0 = k
    · subst h0
      simp [lookupA] at h
      simp [h]
    · simp [lookupA, h0] at h
      exact List.mem_cons_of_mem _ (ih h)

theorem foldSetKey_no_key (incoming : List (String × JVal)) (dash : String) :
    ∀ c, (∀ kv ∈ incoming, kv.1 ≠ dash) →
    lookupA (incoming.foldl (fun c kv => setKey c kv.1 kv.2) c) dash =
      lookupA c dash := by
  induction incoming with
  | nil => intro c _; rfl
  | cons hd tl ih =>
    intro c h
    have hhd : hd.1 ≠ dash := h hd (by simp)
    have hne : ¬dash = hd.1 := fun hh => hhd hh.symm
    rw [List.foldl_cons, ih _ (fun kv hm => h kv (by simp [hm]))]
    simp [lookupA_setKey, hne]

theorem mergeBindings_frame (src : List (String × List (String × JVal)))
    (D dash : String) :
    ∀ b, (∀ e ∈ src, e.1 = D → ∀ kv ∈ e.2, kv.1 ≠ dash) →
    lookupBinding (mergeBindings src b) D dash = lookupBinding b D dash := by
  induction src with
  | nil => intro b _; rfl
  | cons hd tl ih =>
    intro b h
    have htl : ∀ e ∈ tl, e.1 = D → ∀ kv ∈ e.2, kv.1 ≠ dash :=
      fun e hm => h e (by simp [hm])
    have hstep : lookupBinding
        (setKey b hd.1 (hd.2.foldl (fun c kv => setKey c kv.1 kv.2)
          ((lookupA b hd.1).getD []))) D dash = lookupBinding b D dash := by
      by_cases hD : hd.1 = D
      · subst hD
        have hkv : ∀ kv ∈ hd.2, kv.1 ≠ dash := h hd (by simp) rfl
        have hfold := foldSetKey_no_key hd.2 dash ((lookupA b hd.1).getD []) hkv
        unfold lookupBinding
        simp only [lookupA_setKey, eq_self_iff_true, if_true, ite_true, hfold]
        cases hc : lookupA b hd.1 <;> simp [hc, lookupA]
      · have hne : ¬D = hd.1 := fun hh => hD hh.symm
        unfold lookupBinding
        rw [lookupA_setKey]
        simp [hne]
    simp only [mergeBindings, List.foldl_cons] at ih ⊢
    rw [ih _ htl]
    exact hstep

/-- The frame invariant on a merge map: no entry mentions the pair. -/
def BindInv (m : List (String × List (String × JVal))) (D dash : String) : Prop :=
  ∀ e ∈ m, e.1 = D → ∀ kv ∈ e.2, kv.1 ≠ dash

theorem mergeStep_inv (m : List (String × List (String × JVal))) (item : JVal)
    (D dash : String)
    (hitem : ∀ n, normalizeBindingFromSettings item = some n →
      n.screenId ≠ D ∨ n.dashboardId ≠ dash)
    (hI : BindInv m D dash) : BindInv (mergeStep m item) D dash := by
  unfold mergeStep
  cases hn : normalizeBindingFromSettings item with
  | none => exact hI
  | some n =>
    intro e he hD kv hkv
    rcases mem_setKey he with he' | he'
    · rcases hitem n hn with hs | hd
      · exact absurd (by rw [← hD, he']) hs
      · subst he'
        rcases mem_setKey hkv with h1 | h1
        · rw [h1]
          exact hd
        · cases hc : lookupA m n.screenId with
          | none =>
            rw [hc] at h1
            simp at h1
          | some sub =>
            rw [hc] at h1
            exact hI (n.screenId, sub) (lookupA_mem hc) (by rw [← hD]) kv h1
    · exact hI e he' hD kv hkv

theorem mergeMapFold_inv (items : List JVal) (D dash : String)
    (hitems : ∀ item ∈ items, ∀ n, normalizeBindingFromSettings item = some n →
      n.screenId ≠ D ∨ n.dashboardId ≠ dash) :
    ∀ m, BindInv m D dash → BindInv (items.foldl mergeStep m) D dash := by
  induction items with
  | nil => intro m hI; exact hI
  | cons hd tl ih =>
    intro m hI
    rw [List.foldl_cons]
    exact ih (fun item hm => hitems item (by simp [hm])) _
      (mergeStep_inv m hd D dash (hitems hd (by simp)) hI)

/-- Claim C9 (confirmed): merging play bindings from settings never
deletes persisted bindings — for every `(displayId, dashboardId)` pair
not mentioned by any valid incoming item, the persisted binding entry
for that pair is unchanged; a non-array `playBindings` value has no
effect; an item lacking a non-empty (trimmed) screen id or dashboard id
is skipped without any effect on the result. -/
theorem C9_bindings_frame :
    (∀ st items D dash,
      (∀ item ∈ items, ∀ n, normalizeBindingFromSettings item = some n →
        n.screenId ≠ D ∨ n.dashboardId ≠ dash) →
      lookupBinding (applyPlayBindingsFromSettings st (.arr items)).bindings
          D dash =
        lookupBinding st.bindings D dash) ∧
    (∀ st v, (∀ xs, v ≠ .arr xs) → applyPlayBindingsFromSettings st v = st) ∧
    (∀ st pre post item, normalizeBindingFromSettings item = none →
      applyPlayBindingsFromSettings st (.arr (pre ++ item :: post)) =
        applyPlayBindingsFromSettings st (.arr (pre ++ post))) ∧
    (∀ item,
      (jsTrim (jsToString (jsOrVal (item.getF "screenId")
          (jsOrVal (item.getF "displayId") (.str "")))) = "" ∨
        jsTrim (jsToString (jsOrVal (item.getF "dashboardId") (.str ""))) = "") →
      normalizeBindingFromSettings item = none) := by
  refine ⟨?_, ?_, ?_, ?_⟩
  · intro st items D dash hitems
    have hinv := mergeMapFold_inv items D dash hitems [] (by intro e he; simp at he)
    simp only [applyPlayBindingsFromSettings]
    exact mergeBindings_frame _ D dash st.bindings hinv
  · intro st v h
    cases v <;> first
      | rfl
      | exact absurd rfl (h _)
  · intro st pre post item hn
    simp [applyPlayBindingsFromSettings, List.foldl_append, mergeStep, hn]
  · intro item h
    rcases h with h | h <;> simp [normalizeBindingFromSettings, h]

/-- Claim C9, witness: an incoming item for `(A, dashX)` leaves the
persisted binding for `(A, dash2)` unchanged; a numeric `playBindings`
has no effect; an item without a dashboard id normalizes to `null`. -/
theorem C9_witness :
    lookupBinding (applyPlayBindingsFromSettings exPlug
        (.arr [.obj [("screenId", .str "A"), ("dashboardId", .str "dashX")]])).bindings
        "A" "dash2" =
      lookupBinding exPlug.bindings "A" "dash2" ∧
    applyPlayBindingsFromSettings exPlug (.num 3) = exPlug ∧
    normalizeBindingFromSettings (.obj [("screenId", .str "A")]) = none :=
  ⟨C9_bindings_frame.1 exPlug _ "A" "dash2"
    (by
      intro item hmem n hn
      simp at hmem
      subst hmem
      have h0 : normalizeBindingFromSettings
          (.obj [("screenId", .str "A"), ("dashboardId", .str "dashX")]) =
          some ⟨"A", "dashX", .obj [("type", .str "none")]⟩ := rfl
      rw [h0] at hn
      rw [← Option.some_inj.mp hn]
      exact Or.inr (by decide)),
   C9_bindings_frame.2.1 exPlug (.num 3) (by intro xs h; cases h),
   C9_bindings_frame.2.2.2 (.obj [("screenId", .str "A")]) (Or.inr rfl)⟩
